import Mathlib

/-!
Shallow embedding of the meshpilot tool-dispatch core (package `tools`):
the `Manager.ExecuteTool` dispatcher, the 21 tool handlers, their JSON
argument decoding/defaulting, and the normalized `CallToolResult` shape.

External collaborators (the Kubernetes client, `helm`/`kubectl`
subprocesses, the kubeconfig file, the clock and time parsing from the Go
standard library) are modelled as an `Oracle`/`Env` of response functions;
every consultation of a collaborator is recorded in a trace of `ExtCall`
values so that "no external call occurs" is a provable statement.

Go conventions carried over: a JSON payload that fails to parse is
`RawArgs = none`; `json.Unmarshal` into a parameter struct maps an absent
field, a `null` field and an explicit zero value to the same zero value
of the field type; duplicate keys resolve to the last occurrence.
Field names: Go `Namespace` fields are rendered as `ns` because
`namespace` is a Lean keyword.
-/

namespace Meshpilot

/-- JSON values, the shape of argument payloads and of marshalled output. -/
inductive Json where
  | null
  | bool (b : Bool)
  | num (n : Int)
  | str (s : String)
  | arr (elems : List Json)
  | obj (fields : List (String × Json))
  deriving Repr

/-- Decimal digit characters of a positive natural, most significant
first; fuel-structured so the kernel can evaluate it (`fuel ≥ n`). -/
def natDigitsCore : Nat → Nat → List Char
  | 0, _ => []
  | fuel + 1, n =>
    if n = 0 then [] else natDigitsCore fuel (n / 10) ++ [Nat.digitChar (n % 10)]

/-- Decimal digit characters of a natural number (never empty). -/
def natDigits (n : Nat) : List Char :=
  if n = 0 then ['0'] else natDigitsCore (n + 1) n

/-- Decimal rendering of an integer, as Go's `%d` / JSON number encoding. -/
def renderInt (n : Int) : String :=
  if n < 0 then "-" ++ String.mk (natDigits n.natAbs)
  else String.mk (natDigits n.natAbs)

theorem natDigits_ne_nil (n : Nat) : natDigits n ≠ [] := by
  rw [natDigits]
  by_cases h : n = 0
  · simp [h]
  · simp [h, natDigitsCore]

theorem string_mk_ne_empty (l : List Char) (h : l ≠ []) : String.mk l ≠ "" := by
  intro hc
  apply h
  have hdata : (String.mk l).data = ("" : String).data := congrArg String.data hc
  simpa using hdata

theorem string_append_ne_empty_left (s t : String) (h : s ≠ "") : s ++ t ≠ "" := by
  intro hc
  apply h
  have hlen := congrArg String.length hc
  rw [String.length_append] at hlen
  have h0 : ("" : String).length = 0 := rfl
  rw [h0] at hlen
  have hs : s.length = 0 := by omega
  cases s with
  | mk data =>
    cases data with
    | nil => decide
    | cons c cs => simp [String.length] at hs

theorem renderInt_ne_empty (n : Int) : renderInt n ≠ "" := by
  rw [renderInt]
  by_cases h : n < 0
  · simp only [h, if_true]
    exact string_append_ne_empty_left _ _ (by decide)
  · simp only [h, if_false]
    exact string_mk_ne_empty _ (natDigits_ne_nil _)

/-- Core of Go's `strings.Split` for a non-empty separator, structured
on fuel (`fuel ≥ length of the remaining input` suffices). -/
def goSplitCore (sep : List Char) : Nat → List Char → List Char → List (List Char)
  | _, [], acc => [acc.reverse]
  | 0, s, acc => [acc.reverse ++ s]
  | fuel + 1, c :: rest, acc =>
    if sep.isPrefixOf (c :: rest) then
      acc.reverse :: goSplitCore sep fuel (List.drop sep.length (c :: rest)) []
    else
      goSplitCore sep fuel rest (c :: acc)

/-- Go `strings.Split` semantics (the source only splits on non-empty
literal separators). -/
def goSplit (s sep : String) : List String :=
  if sep = "" then [s]
  else (goSplitCore sep.data s.data.length s.data []).map String.mk

/-- Go `strings.Contains` for the non-empty literals used in the source. -/
def strContains (s pat : String) : Bool := (goSplit s pat).length > 1

/-- The whitespace predicate of Go's `strings.TrimSpace`/`Fields`
(restricted to the ASCII space classes that occur in practice). -/
def isSpaceChar (c : Char) : Bool :=
  c = ' ' ∨ c = '\t' ∨ c = '\n' ∨ c = '\r'

/-- Go `strings.TrimSpace`. -/
def goTrim (s : String) : String :=
  String.mk (((s.data.dropWhile isSpaceChar).reverse.dropWhile isSpaceChar).reverse)

/-- Split at every character satisfying `p` (empty pieces preserved). -/
def splitPredCore (p : Char → Bool) : List Char → List Char → List (List Char)
  | [], acc => [acc.reverse]
  | c :: rest, acc =>
    if p c then acc.reverse :: splitPredCore p rest []
    else splitPredCore p rest (c :: acc)

/-- Go `strings.Fields` (ASCII whitespace). -/
def goFields (s : String) : List String :=
  ((splitPredCore isSpaceChar s.data []).map String.mk).filter (fun f => f ≠ "")

/-- Go `strings.Join`. -/
def goJoin (sep : String) : List String → String
  | [] => ""
  | x :: xs => xs.foldl (fun acc y => acc ++ sep ++ y) x

/-- Go `strings.HasPrefix`. -/
def goHasPre (p s : String) : Bool := p.data.isPrefixOf s.data

/-- Go `strings.ToLower` (ASCII range, which is all the level-detection
code ever distinguishes). -/
def asciiLower (s : String) : String :=
  String.mk (s.data.map (fun c =>
    if 'A' ≤ c ∧ c ≤ 'Z' then Char.ofNat (c.toNat + 32) else c))

/-- Go `fmt.Sscanf(s, "%d", &x)`: skip leading blanks, optional sign, at
least one digit; trailing input is ignored. `none` models scan count 0. -/
def sscanfInt (s : String) : Option Int :=
  let cs := s.data.dropWhile (fun c => c = ' ' ∨ c = '\t')
  let (neg, rest) :=
    match cs with
    | '-' :: r => (true, r)
    | '+' :: r => (false, r)
    | r => (false, r)
  let digits := rest.takeWhile Char.isDigit
  if digits.isEmpty then none
  else
    let v : Nat := digits.foldl (fun acc c => acc * 10 + (c.toNat - 48)) 0
    some (if neg then -(v : Int) else (v : Int))

/-- Insertion sort on strings, modelling Go's sorted-key map marshalling. -/
def insertSorted (s : String) : List String → List String
  | [] => [s]
  | x :: xs => if s ≤ x then s :: x :: xs else x :: insertSorted s xs

def sortStrings (l : List String) : List String :=
  l.foldr insertSorted []

mutual
/-- Deterministic rendering of a JSON value, standing for Go's
`json.MarshalIndent(v, "", "  ")` (compact form; the indentation bytes do
not affect any property proved here, only determinism and content). -/
def renderJson : Json → String
  | .null => "null"
  | .bool true => "true"
  | .bool false => "false"
  | .num n => renderInt n
  | .str s => "\"" ++ s ++ "\""
  | .arr elems => "[" ++ renderArr elems ++ "]"
  | .obj fields => "\x7b" ++ renderObj fields ++ "\x7d"

def renderArr : List Json → String
  | [] => ""
  | [x] => renderJson x
  | x :: y :: rest => renderJson x ++ "," ++ renderArr (y :: rest)

def renderObj : List (String × Json) → String
  | [] => ""
  | [(k, v)] => "\"" ++ k ++ "\":" ++ renderJson v
  | (k, v) :: y :: rest => "\"" ++ k ++ "\":" ++ renderJson v ++ "," ++ renderObj (y :: rest)
end

theorem renderJson_ne_empty (j : Json) : renderJson j ≠ "" := by
  cases j with
  | null => simp only [renderJson]; decide
  | bool b => cases b <;> (simp only [renderJson]; decide)
  | num n => simp only [renderJson]; exact renderInt_ne_empty n
  | str s =>
      simp only [renderJson]
      exact string_append_ne_empty_left _ _ (string_append_ne_empty_left _ _ (by decide))
  | arr elems =>
      simp only [renderJson]
      exact string_append_ne_empty_left _ _ (string_append_ne_empty_left _ _ (by decide))
  | obj fields =>
      simp only [renderJson]
      exact string_append_ne_empty_left _ _ (string_append_ne_empty_left _ _ (by decide))

/-- Go marshals a slice built from a `var x []T` declaration as `null`
when it stayed nil and as an array otherwise. -/
def goSlice (elems : List Json) : Json :=
  if elems.isEmpty then Json.null else Json.arr elems

/-- Build a JSON object from fields that may be omitted (`omitempty`). -/
def objOpt (fields : List (String × Option Json)) : Json :=
  Json.obj (fields.filterMap (fun kv => kv.2.map (fun v => (kv.1, v))))

/-- Field lookup in a JSON object: in Go's `encoding/json`, the last
occurrence of a duplicated key wins. -/
def jLookup (fields : List (String × Json)) (key : String) : Option Json :=
  fields.foldl (fun acc kv => if kv.1 = key then some kv.2 else acc) none

/-- Decode a string struct field: absent or `null` gives `""` (the Go zero
value), a string gives itself, anything else is an unmarshal error. -/
def jStr (fields : List (String × Json)) (key : String) : Except String String :=
  match jLookup fields key with
  | none => .ok ""
  | some .null => .ok ""
  | some (.str s) => .ok s
  | some _ => .error ("json: cannot unmarshal value into Go struct field " ++ key)

/-- Decode an integer struct field (`int`, `int32`, `int64` all map to `Int`). -/
def jInt (fields : List (String × Json)) (key : String) : Except String Int :=
  match jLookup fields key with
  | none => .ok 0
  | some .null => .ok 0
  | some (.num n) => .ok n
  | some _ => .error ("json: cannot unmarshal value into Go struct field " ++ key)

/-- Decode a boolean struct field. -/
def jBool (fields : List (String × Json)) (key : String) : Except String Bool :=
  match jLookup fields key with
  | none => .ok false
  | some .null => .ok false
  | some (.bool b) => .ok b
  | some _ => .error ("json: cannot unmarshal value into Go struct field " ++ key)

def jStrElem : Json → Except String String
  | .str s => .ok s
  | _ => .error "json: cannot unmarshal array element into Go value of type string"

/-- Decode a `[]string` struct field: absent or `null` is the nil slice. -/
def jStrList (fields : List (String × Json)) (key : String) : Except String (List String) :=
  match jLookup fields key with
  | none => .ok []
  | some .null => .ok []
  | some (.arr elems) => elems.mapM jStrElem
  | some _ => .error ("json: cannot unmarshal value into Go struct field " ++ key)

/-- Decode a `map[string]interface{}` struct field: absent or `null` is
the nil map. -/
def jObjMap (fields : List (String × Json)) (key : String) :
    Except String (List (String × Json)) :=
  match jLookup fields key with
  | none => .ok []
  | some .null => .ok []
  | some (.obj fs) => .ok fs
  | some _ => .error ("json: cannot unmarshal value into Go struct field " ++ key)

/-- A raw argument payload (`json.RawMessage`): `none` models bytes that
are not valid JSON at all. -/
abbrev RawArgs := Option Json

/-- `TextContent` from the source: a typed text block. -/
structure TextContent where
  type : String
  text : String
  deriving DecidableEq, Repr

/-- `CallToolResult` from the source. The Go `Content []interface{}` only
ever holds `TextContent` values, so it is modelled as such directly. -/
structure CallToolResult where
  isError : Bool := false
  content : List TextContent
  deriving DecidableEq, Repr

/-- An error result with one text block, as every handler builds it. -/
def errResult (msg : String) : CallToolResult :=
  { isError := true, content := [{ type := "text", text := msg }] }

/-- A success result with one text block. -/
def okResult (msg : String) : CallToolResult :=
  { isError := false, content := [{ type := "text", text := msg }] }

/-- A pod as the collaborator returns it (the fields the handlers read).
`labels = none` models a Go nil label map. -/
structure Pod where
  name : String
  ns : String
  containers : List String
  podIP : String
  nodeName : String
  labels : Option (List (String × String))
  deriving DecidableEq, Repr

/-- DaemonSet status fields read by `getIstioStatus`. -/
structure DSStatus where
  numberReady : Int
  desiredNumberScheduled : Int
  deriving DecidableEq, Repr

/-- Deployment status fields read by the status helpers. `image = none`
models a pod template with no containers. -/
structure DeployStatus where
  readyReplicas : Int
  replicas : Int
  availableReplicas : Int
  image : Option String
  deriving DecidableEq, Repr

/-- One release as decoded from `helm list --output json`. -/
structure HelmRelease where
  chart : String
  appVersion : String
  deriving DecidableEq, Repr

/-- One kubeconfig context entry. -/
structure KubeCtx where
  cluster : String
  authInfo : String
  ns : String
  deriving DecidableEq, Repr

/-- A loaded kubeconfig. `contexts` is the context map in the order the Go
runtime enumerates it; Go map iteration order is unspecified, so two loads
of the same file may present the same entries in different orders. -/
structure Kubeconfig where
  contexts : List (String × KubeCtx)
  currentContext : String
  deriving DecidableEq, Repr

/-- Outcome of a namespace `Get`, classified as the source classifies it
via `errors.IsNotFound`. -/
inductive NsGet where
  | found
  | notFound
  | err (e : String)
  deriving DecidableEq, Repr

/-- Outcome of a `Create` call, classified via `errors.IsAlreadyExists`. -/
inductive CreateRes where
  | ok
  | alreadyExists
  | err (e : String)
  deriving DecidableEq, Repr

/-- Outcome of a `Delete` call, classified via `errors.IsNotFound`. -/
inductive DeleteRes where
  | ok
  | notFound
  | err (e : String)
  deriving DecidableEq, Repr

/-- Service fields read by `TestSleepToHttpbin`. -/
structure ServiceInfo where
  clusterIP : String
  deriving DecidableEq, Repr

/-- A pod log stream: the lines it yields and an optional read error
(`scanner.Err()`). -/
structure LogStream where
  lines : List String
  readErr : Option String
  deriving DecidableEq, Repr

/-- `corev1.PodLogOptions` as built by `GetPodLogs`. -/
structure LogOptions where
  container : String
  follow : Bool
  previous : Bool
  timestamps : Bool
  tailLines : Int
  sinceTime : Option Int
  deriving DecidableEq, Repr

/-- Label-selector operators from `metav1.LabelSelectorOperator`. -/
inductive SelOp where
  | opIn
  | opNotIn
  | opExists
  | opDoesNotExist
  deriving DecidableEq, Repr

structure LabelSelReq where
  key : String
  op : SelOp
  values : List String
  deriving DecidableEq, Repr

/-- `metav1.LabelSelector`. -/
structure LabelSel where
  matchLabels : List (String × String)
  matchExpressions : List LabelSelReq
  deriving DecidableEq, Repr

/-- One network policy as the collaborator returns it: `specJson` is the
marshalled form of its spec, whose pod selector is `podSelector`. -/
structure NetPol where
  name : String
  ns : String
  podSelector : LabelSel
  specJson : Json

/-- One recorded consultation of an external collaborator (cluster API
call, kubeconfig access, or `helm`/`kubectl` subprocess). -/
inductive ExtCall where
  | loadKubeconfig
  | readKubeconfig
  | writeKubeconfig (ctx : String)
  | serverVersion
  | listNodes
  | listNamespaces
  | currentContext
  | getPod (ns name : String)
  | listPods (ns selector : String)
  | getService (ns name : String)
  | streamLogs (ns pod : String) (opts : LogOptions)
  | execInPod (ns pod container : String) (cmd : List String)
  | helm (args : List String)
  | kubectl (args : List String)
  | kubectlLogs (pod ns container : String)
  | getNamespace (name : String)
  | getDaemonSet (ns name : String)
  | listDeployments (ns selector : String)
  | listNetPols (ns selector : String)
  | createNamespace (name : String) (labels : List (String × String))
  | updateNamespace (name : String) (labels : List (String × String))
  | createServiceAccount (ns name : String)
  | createDeployment (ns name : String) (replicas : Int)
  | createService (ns name : String)
  | deleteDeployment (ns name : String)
  | deleteService (ns name : String)
  | deleteServiceAccount (ns name : String)
  deriving DecidableEq, Repr

/-- Pure-environment facts a handler reads from the Go runtime/stdlib:
the clock and time parsing. Times are carried in their marshalled string
form since no handler computes with them. -/
structure Env where
  nowStr : String
  nowUnix : Int
  durStr : String
  parseTime : String → Option String
  parseDur : String → Except String Int

/-- Responses of the external collaborators. Each field corresponds to
one narrow interface the handlers call through; the handlers record a
matching `ExtCall` whenever they consult one. -/
structure Oracle where
  loadKubeconfig : Except String Kubeconfig
  startingKubeconfig : Except String Kubeconfig
  writeKubeconfig : String → Option String
  serverVersion : Except String String
  listNodes : Except String Int
  listNamespaces : Except String (List String)
  currentContext : Except String String
  configHost : String
  getPod : String → String → Except String Pod
  listPods : String → String → Except String (List Pod)
  getService : String → String → Except String ServiceInfo
  streamLogs : String → String → LogOptions → Except String LogStream
  execInPod : String → String → String → List String → Except String String
  helm : List String → String × Option String
  kubectl : List String → String × Option String
  debugLogs : String → String → String → String × Option String
  helmList : String → String → Except String (List HelmRelease)
  getNamespace : String → NsGet
  getDaemonSet : String → String → Except String DSStatus
  listDeployments : String → String → Except String (List DeployStatus)
  listNetPols : String → String → Except String (List NetPol)
  nsLabels : String → Except String (List (String × String))
  createNamespace : String → List (String × String) → CreateRes
  updateNamespace : String → List (String × String) → Option String
  createServiceAccount : String → String → CreateRes
  createDeployment : String → String → Int → CreateRes
  createService : String → String → CreateRes
  deleteDeployment : String → String → DeleteRes
  deleteService : String → String → DeleteRes
  deleteServiceAccount : String → String → DeleteRes

/-- The value a handler hands back to the dispatcher: the Go
`(*CallToolResult, error)` pair, plus the recorded collaborator trace. -/
structure HandlerOut where
  result : CallToolResult
  goErr : Option String
  trace : List ExtCall

/-- `json.Unmarshal` of a raw payload into a parameter struct: invalid
bytes and non-object JSON are unmarshal errors, `null` is a no-op (the
struct keeps its zero values), an object decodes field-wise. -/
def decodeArgs (f : List (String × Json) → Except String α) : RawArgs → Except String α
  | none => .error "unexpected end of JSON input"
  | some .null => f []
  | some (.obj fs) => f fs
  | some _ => .error "json: cannot unmarshal value into Go struct"

/-! ### Parameter structs (one per handler, as declared in the source) -/

structure SwitchContextParams where
  context : String
  deriving DecidableEq, Repr

def decodeSwitchContextObj (fs : List (String × Json)) : Except String SwitchContextParams := do
  let context ← jStr fs "context"
  pure { context }

structure InstallIstioParams where
  ns : String
  version : String
  values : List (String × Json)
  installGateway : Bool
  gatewayNamespace : String
  installCNI : Bool
  cniValues : List (String × Json)
  timeout : String
  wait : Bool

def decodeInstallIstioObj (fs : List (String × Json)) : Except String InstallIstioParams := do
  let ns ← jStr fs "namespace"
  let version ← jStr fs "version"
  let values ← jObjMap fs "values"
  let installGateway ← jBool fs "install_gateway"
  let gatewayNamespace ← jStr fs "gateway_namespace"
  let installCNI ← jBool fs "install_cni"
  let cniValues ← jObjMap fs "cni_values"
  let timeout ← jStr fs "timeout"
  let wait ← jBool fs "wait"
  pure { ns, version, values, installGateway, gatewayNamespace, installCNI, cniValues, timeout, wait }

/-- The defaulting block of `InstallIstio` (`wait` is forced to true). -/
def defaultInstallIstio (p : InstallIstioParams) : InstallIstioParams :=
  { p with
    ns := if p.ns = "" then "istio-system" else p.ns
    gatewayNamespace := if p.gatewayNamespace = "" then "istio-ingress" else p.gatewayNamespace
    timeout := if p.timeout = "" then "5m" else p.timeout
    wait := true }

structure UninstallIstioParams where
  ns : String
  gatewayNamespace : String
  uninstallCNI : Bool
  deleteCRDs : Bool
  wait : Bool
  timeout : String
  deriving DecidableEq, Repr

def decodeUninstallIstioObj (fs : List (String × Json)) : Except String UninstallIstioParams := do
  let ns ← jStr fs "namespace"
  let gatewayNamespace ← jStr fs "gateway_namespace"
  let uninstallCNI ← jBool fs "uninstall_cni"
  let deleteCRDs ← jBool fs "delete_crds"
  let wait ← jBool fs "wait"
  let timeout ← jStr fs "timeout"
  pure { ns, gatewayNamespace, uninstallCNI, deleteCRDs, wait, timeout }

def defaultUninstallIstio (p : UninstallIstioParams) : UninstallIstioParams :=
  { p with
    ns := if p.ns = "" then "istio-system" else p.ns
    gatewayNamespace := if p.gatewayNamespace = "" then "istio-ingress" else p.gatewayNamespace
    timeout := if p.timeout = "" then "5m" else p.timeout
    wait := true }

structure NamespaceOnlyParams where
  ns : String
  deriving DecidableEq, Repr

def decodeNamespaceOnlyObj (fs : List (String × Json)) : Except String NamespaceOnlyParams := do
  let ns ← jStr fs "namespace"
  pure { ns }

structure InstallSailParams where
  ns : String
  version : String
  releaseName : String
  values : List (String × Json)
  wait : Bool
  timeout : String

def decodeInstallSailObj (fs : List (String × Json)) : Except String InstallSailParams := do
  let ns ← jStr fs "namespace"
  let version ← jStr fs "version"
  let releaseName ← jStr fs "release_name"
  let values ← jObjMap fs "values"
  let wait ← jBool fs "wait"
  let timeout ← jStr fs "timeout"
  pure { ns, version, releaseName, values, wait, timeout }

def defaultInstallSail (p : InstallSailParams) : InstallSailParams :=
  { p with
    ns := if p.ns = "" then "sail-operator" else p.ns
    releaseName := if p.releaseName = "" then "sail-operator" else p.releaseName
    timeout := if p.timeout = "" then "5m" else p.timeout
    wait := true }

structure UninstallSailParams where
  ns : String
  releaseName : String
  wait : Bool
  timeout : String
  deriving DecidableEq, Repr

def decodeUninstallSailObj (fs : List (String × Json)) : Except String UninstallSailParams := do
  let ns ← jStr fs "namespace"
  let releaseName ← jStr fs "release_name"
  let wait ← jBool fs "wait"
  let timeout ← jStr fs "timeout"
  pure { ns, releaseName, wait, timeout }

def defaultUninstallSail (p : UninstallSailParams) : UninstallSailParams :=
  { p with
    ns := if p.ns = "" then "sail-operator" else p.ns
    releaseName := if p.releaseName = "" then "sail-operator" else p.releaseName
    timeout := if p.timeout = "" then "5m" else p.timeout
    wait := true }

structure DeploySleepParams where
  ns : String
  istioInjection : Bool
  replicas : Int
  deriving DecidableEq, Repr

def decodeDeploySleepObj (fs : List (String × Json)) : Except String DeploySleepParams := do
  let ns ← jStr fs "namespace"
  let istioInjection ← jBool fs "istio_injection"
  let replicas ← jInt fs "replicas"
  pure { ns, istioInjection, replicas }

def defaultDeploySleep (p : DeploySleepParams) : DeploySleepParams :=
  { p with
    ns := if p.ns = "" then "default" else p.ns
    replicas := if p.replicas = 0 then 1 else p.replicas
    istioInjection := true }

structure DeployHttpbinParams where
  ns : String
  istioInjection : Bool
  replicas : Int
  exposeService : Bool
  deriving DecidableEq, Repr

def decodeDeployHttpbinObj (fs : List (String × Json)) : Except String DeployHttpbinParams := do
  let ns ← jStr fs "namespace"
  let istioInjection ← jBool fs "istio_injection"
  let replicas ← jInt fs "replicas"
  let exposeService ← jBool fs "expose_service"
  pure { ns, istioInjection, replicas, exposeService }

def defaultDeployHttpbin (p : DeployHttpbinParams) : DeployHttpbinParams :=
  { p with
    ns := if p.ns = "" then "default" else p.ns
    replicas := if p.replicas = 0 then 1 else p.replicas
    istioInjection := true
    exposeService := true }

structure TestConnectivityParams where
  sourcePod : String
  sourceNamespace : String
  targetService : String
  targetPort : Int
  protocol : String
  path : String
  timeout : Int
  method : String
  deriving DecidableEq, Repr

def decodeTestConnectivityObj (fs : List (String × Json)) : Except String TestConnectivityParams := do
  let sourcePod ← jStr fs "source_pod"
  let sourceNamespace ← jStr fs "source_namespace"
  let targetService ← jStr fs "target_service"
  let targetPort ← jInt fs "target_port"
  let protocol ← jStr fs "protocol"
  let path ← jStr fs "path"
  let timeout ← jInt fs "timeout"
  let method ← jStr fs "method"
  pure { sourcePod, sourceNamespace, targetService, targetPort, protocol, path, timeout, method }

def defaultTestConnectivity (p : TestConnectivityParams) : TestConnectivityParams :=
  { p with
    sourceNamespace := if p.sourceNamespace = "" then "default" else p.sourceNamespace
    protocol := if p.protocol = "" then "http" else p.protocol
    path := if p.path = "" then "/" else p.path
    timeout := if p.timeout = 0 then 10 else p.timeout
    method := if p.method = "" then "GET" else p.method }

structure TestSleepToHttpbinParams where
  sourceNamespace : String
  targetNamespace : String
  testEndpoints : List String
  timeout : Int
  deriving DecidableEq, Repr

def decodeTestSleepToHttpbinObj (fs : List (String × Json)) : Except String TestSleepToHttpbinParams := do
  let sourceNamespace ← jStr fs "source_namespace"
  let targetNamespace ← jStr fs "target_namespace"
  let testEndpoints ← jStrList fs "test_endpoints"
  let timeout ← jInt fs "timeout"
  pure { sourceNamespace, targetNamespace, testEndpoints, timeout }

def defaultTestSleepToHttpbin (p : TestSleepToHttpbinParams) : TestSleepToHttpbinParams :=
  { p with
    sourceNamespace := if p.sourceNamespace = "" then "default" else p.sourceNamespace
    targetNamespace := if p.targetNamespace = "" then "default" else p.targetNamespace
    timeout := if p.timeout = 0 then 10 else p.timeout
    testEndpoints :=
      if p.testEndpoints.isEmpty then ["/get", "/headers", "/status/200", "/delay/1"]
      else p.testEndpoints }

structure GetPodLogsParams where
  podName : String
  ns : String
  container : String
  lines : Int
  since : String
  follow : Bool
  previous : Bool
  timestamps : Bool
  parseLogs : Bool
  maxLines : Int
  deriving DecidableEq, Repr

def decodeGetPodLogsObj (fs : List (String × Json)) : Except String GetPodLogsParams := do
  let podName ← jStr fs "pod_name"
  let ns ← jStr fs "namespace"
  let container ← jStr fs "container"
  let lines ← jInt fs "lines"
  let since ← jStr fs "since"
  let follow ← jBool fs "follow"
  let previous ← jBool fs "previous"
  let timestamps ← jBool fs "timestamps"
  let parseLogs ← jBool fs "parse_logs"
  let maxLines ← jInt fs "max_lines"
  pure { podName, ns, container, lines, since, follow, previous, timestamps, parseLogs, maxLines }

def defaultGetPodLogs (p : GetPodLogsParams) : GetPodLogsParams :=
  { p with
    ns := if p.ns = "" then "default" else p.ns
    lines := if p.lines = 0 then 100 else p.lines
    maxLines := if p.maxLines = 0 then 1000 else p.maxLines
    timestamps := true }

structure GetIstioProxyLogsParams where
  podName : String
  ns : String
  lines : Int
  since : String
  logLevel : String
  deriving DecidableEq, Repr

def decodeGetIstioProxyLogsObj (fs : List (String × Json)) : Except String GetIstioProxyLogsParams := do
  let podName ← jStr fs "pod_name"
  let ns ← jStr fs "namespace"
  let lines ← jInt fs "lines"
  let since ← jStr fs "since"
  let logLevel ← jStr fs "log_level"
  pure { podName, ns, lines, since, logLevel }

def defaultGetIstioProxyLogs (p : GetIstioProxyLogsParams) : GetIstioProxyLogsParams :=
  { p with
    ns := if p.ns = "" then "default" else p.ns
    lines := if p.lines = 0 then 100 else p.lines }

structure ExecPodCommandParams where
  podName : String
  ns : String
  container : String
  command : List String
  interactive : Bool
  timeout : Int
  deriving DecidableEq, Repr

def decodeExecPodCommandObj (fs : List (String × Json)) : Except String ExecPodCommandParams := do
  let podName ← jStr fs "pod_name"
  let ns ← jStr fs "namespace"
  let container ← jStr fs "container"
  let command ← jStrList fs "command"
  let interactive ← jBool fs "interactive"
  let timeout ← jInt fs "timeout"
  pure { podName, ns, container, command, interactive, timeout }

structure GetIptablesRulesParams where
  podName : String
  ns : String
  container : String
  tables : List String
  verbose : Bool
  deriving DecidableEq, Repr

def decodeGetIptablesRulesObj (fs : List (String × Json)) : Except String GetIptablesRulesParams := do
  let podName ← jStr fs "pod_name"
  let ns ← jStr fs "namespace"
  let container ← jStr fs "container"
  let tables ← jStrList fs "tables"
  let verbose ← jBool fs "verbose"
  pure { podName, ns, container, tables, verbose }

structure GetNetworkPoliciesParams where
  ns : String
  podName : String
  labelSelector : String
  deriving DecidableEq, Repr

def decodeGetNetworkPoliciesObj (fs : List (String × Json)) : Except String GetNetworkPoliciesParams := do
  let ns ← jStr fs "namespace"
  let podName ← jStr fs "pod_name"
  let labelSelector ← jStr fs "label_selector"
  pure { ns, podName, labelSelector }

structure TraceNetworkPathParams where
  sourcePod : String
  sourceNamespace : String
  targetPod : String
  targetNamespace : String
  targetHost : String
  targetPort : Int
  maxHops : Int
  deriving DecidableEq, Repr

def decodeTraceNetworkPathObj (fs : List (String × Json)) : Except String TraceNetworkPathParams := do
  let sourcePod ← jStr fs "source_pod"
  let sourceNamespace ← jStr fs "source_namespace"
  let targetPod ← jStr fs "target_pod"
  let targetNamespace ← jStr fs "target_namespace"
  let targetHost ← jStr fs "target_host"
  let targetPort ← jInt fs "target_port"
  let maxHops ← jInt fs "max_hops"
  pure { sourcePod, sourceNamespace, targetPod, targetNamespace, targetHost, targetPort, maxHops }

def defaultTraceNetworkPath (p : TraceNetworkPathParams) : TraceNetworkPathParams :=
  { p with
    sourceNamespace := if p.sourceNamespace = "" then "default" else p.sourceNamespace
    targetNamespace := if p.targetNamespace = "" then "default" else p.targetNamespace
    maxHops := if p.maxHops = 0 then 30 else p.maxHops }

/-! ### Small helpers shared by the handlers -/

/-- How Go marshals the zero `time.Time`. -/
def zeroTimeStr : String := "0001-01-01T00:00:00Z"

/-- Set a key in a string-keyed map modelled as an association list with
unique keys (replace, or append when absent). -/
def setStr (m : List (String × String)) (k v : String) : List (String × String) :=
  if m.any (fun kv => kv.1 == k) then
    m.map (fun kv => if kv.1 == k then (k, v) else kv)
  else m ++ [(k, v)]

/-- Same for JSON-valued maps (`map[string]interface{}`). -/
def setJson (m : List (String × Json)) (k : String) (v : Json) : List (String × Json) :=
  if m.any (fun kv => kv.1 == k) then
    m.map (fun kv => if kv.1 == k then (k, v) else kv)
  else m ++ [(k, v)]

/-- Lookup in a unique-key association map. -/
def valLookup (m : List (String × Json)) (k : String) : Option Json :=
  (m.find? (fun kv => kv.1 == k)).map (fun kv => kv.2)

def strLookup (m : List (String × String)) (k : String) : Option String :=
  (m.find? (fun kv => kv.1 == k)).map (fun kv => kv.2)

/-- Marshal a `map[string]string`: Go sorts map keys when marshalling. -/
def strMapJson (m : List (String × String)) : Json :=
  Json.obj ((sortStrings (m.map (fun kv => kv.1))).map
    (fun k => (k, Json.str ((strLookup m k).getD ""))))

/-- The status-code extraction of `TestConnectivity`/`TestSleepToHttpbin`:
split the exec output on `HTTP_CODE:`, take the first line after the
first occurrence, and scan it with `fmt.Sscanf(..., "%d", ...)`. -/
def parseHttpCode (out : String) : Option Int :=
  match goSplit out "HTTP_CODE:" with
  | _ :: second :: _ =>
    match goSplit second "\n" with
    | first :: _ => sscanfInt first
    | [] => none
  | _ => none

/-! ### Cluster management handlers -/

/-- Marshalled `ContextInfo` (field order as declared in the source). -/
def contextInfoJson (name : String) (c : KubeCtx) (current : Bool) : Json :=
  .obj [("name", .str name), ("cluster", .str c.cluster), ("user", .str c.authInfo),
        ("namespace", .str c.ns), ("current", .bool current)]

/-- `Manager.ListContexts`. The `args` payload is never decoded. The
contexts are emitted in the order the runtime enumerates the kubeconfig's
context map (`cfg.contexts`), which Go leaves unspecified. -/
def ListContexts (_env : Env) (o : Oracle) (_args : RawArgs) : HandlerOut :=
  match o.loadKubeconfig with
  | .error e =>
    ⟨errResult ("Failed to load kubeconfig: " ++ e), none, [.loadKubeconfig]⟩
  | .ok cfg =>
    let contexts := cfg.contexts.map
      (fun kv => contextInfoJson kv.1 kv.2 (kv.1 == cfg.currentContext))
    ⟨okResult (renderJson (goSlice contexts)), none, [.loadKubeconfig]⟩

/-- `Manager.SwitchContext`. -/
def SwitchContext (_env : Env) (o : Oracle) (args : RawArgs) : HandlerOut :=
  match decodeArgs decodeSwitchContextObj args with
  | .error e => ⟨errResult ("Invalid parameters: " ++ e), none, []⟩
  | .ok p =>
    if p.context = "" then
      ⟨errResult "Context name is required", none, []⟩
    else
      match o.startingKubeconfig with
      | .error e =>
        ⟨errResult ("Failed to get kubeconfig: " ++ e), none, [.readKubeconfig]⟩
      | .ok cfg =>
        if cfg.contexts.any (fun kv => kv.1 == p.context) then
          match o.writeKubeconfig p.context with
          | some e =>
            ⟨errResult ("Failed to switch context: " ++ e), none,
             [.readKubeconfig, .writeKubeconfig p.context]⟩
          | none =>
            ⟨okResult ("Successfully switched to context: " ++ p.context), none,
             [.readKubeconfig, .writeKubeconfig p.context]⟩
        else
          ⟨errResult ("Context '" ++ p.context ++ "' does not exist"), none,
           [.readKubeconfig]⟩

/-- `Manager.GetClusterInfo`. The `args` payload is never decoded. -/
def GetClusterInfo (_env : Env) (o : Oracle) (_args : RawArgs) : HandlerOut :=
  match o.serverVersion with
  | .error e =>
    ⟨errResult ("Failed to get server version: " ++ e), none, [.serverVersion]⟩
  | .ok version =>
    match o.listNodes with
    | .error e =>
      ⟨errResult ("Failed to get nodes: " ++ e), none, [.serverVersion, .listNodes]⟩
    | .ok nodes =>
      match o.listNamespaces with
      | .error e =>
        ⟨errResult ("Failed to get namespaces: " ++ e), none,
         [.serverVersion, .listNodes, .listNamespaces]⟩
      | .ok nss =>
        let ctx := match o.currentContext with | .error _ => "unknown" | .ok c => c
        let info := Json.obj
          [("name", .str ctx), ("server", .str o.configHost), ("version", .str version),
           ("nodes", .num nodes), ("namespaces", goSlice (nss.map Json.str)),
           ("context", .str ctx)]
        ⟨okResult (renderJson info), none,
         [.serverVersion, .listNodes, .listNamespaces, .currentContext]⟩

/-! ### Logging handlers -/

structure LogEntry where
  timestamp : String
  level : String
  message : String
  container : String
  pod : String
  ns : String
  deriving DecidableEq, Repr

def logEntryJson (e : LogEntry) : Json :=
  objOpt [("timestamp", some (.str e.timestamp)),
          ("level", if e.level = "" then none else some (.str e.level)),
          ("message", some (.str e.message)),
          ("container", some (.str e.container)),
          ("pod", some (.str e.pod)),
          ("namespace", some (.str e.ns))]

structure LogResult where
  pod : String
  ns : String
  container : String
  lines : Int
  entries : List LogEntry
  rawLogs : String
  truncated : Bool
  deriving DecidableEq, Repr

def logResultJson (r : LogResult) : Json :=
  objOpt [("pod", some (.str r.pod)),
          ("namespace", some (.str r.ns)),
          ("container", some (.str r.container)),
          ("lines", some (.num r.lines)),
          ("entries", if r.entries.isEmpty then none
                      else some (.arr (r.entries.map logEntryJson))),
          ("raw_logs", if r.rawLogs = "" then none else some (.str r.rawLogs)),
          ("truncated", if r.truncated then some (.bool true) else none)]

/-- `Manager.parseLogLine`. Byte indexing in the source is modelled as
character indexing (the timestamp prefix it probes is ASCII). -/
def parseLogLine (env : Env) (line pod ns container : String) : Option LogEntry :=
  if line = "" then none
  else
    let cs := line.data
    let (ts, msg) :=
      if cs.length > 30 ∧ cs.getD 10 ' ' = 'T' ∧ cs.getD 19 ' ' = '.' then
        match env.parseTime (String.mk (cs.take 30)) with
        | some t => (t, if cs.length > 31 then String.mk (cs.drop 31) else line)
        | none => (zeroTimeStr, line)
      else (zeroTimeStr, line)
    let lower := asciiLower msg
    let level :=
      if strContains lower "error" || strContains lower "err" then "error"
      else if strContains lower "warn" then "warning"
      else if strContains lower "info" then "info"
      else if strContains lower "debug" then "debug"
      else ""
    some { timestamp := ts, level, message := msg, container, pod, ns }

/-- `Manager.processLogs`: scan at most `maxLines` lines; a scanner error
(the stream's read error) aborts with an error. -/
def processLogs (env : Env) (stream : LogStream) (pod ns container : String)
    (parseLogs : Bool) (maxLines : Int) : Except String LogResult :=
  match stream.readErr with
  | some e => .error ("error reading logs: " ++ e)
  | none =>
    let taken := stream.lines.take maxLines.toNat
    let rawLogs := taken.foldl (fun acc l => acc ++ l ++ "\n") ""
    let entries :=
      if parseLogs then taken.filterMap (fun l => parseLogLine env l pod ns container)
      else []
    .ok { pod, ns, container, lines := (taken.length : Int), entries, rawLogs,
          truncated := (taken.length : Int) ≥ maxLines }

/-- `Manager.GetPodLogs`. -/
def GetPodLogs (env : Env) (o : Oracle) (args : RawArgs) : HandlerOut :=
  match decodeArgs decodeGetPodLogsObj args with
  | .error e => ⟨errResult ("Invalid parameters: " ++ e), none, []⟩
  | .ok p0 =>
    let p := defaultGetPodLogs p0
    match o.getPod p.ns p.podName with
    | .error e =>
      ⟨errResult ("Failed to get pod: " ++ e), none, [.getPod p.ns p.podName]⟩
    | .ok pod =>
      match (if p.container = "" then pod.containers.head? else some p.container) with
      | none =>
        ⟨errResult "No containers found in pod", none, [.getPod p.ns p.podName]⟩
      | some container =>
        let sinceRes : Except String (Option Int) :=
          if p.since = "" then .ok none
          else match env.parseDur p.since with
            | .error e => .error e
            | .ok d => .ok (some (env.nowUnix - d))
        match sinceRes with
        | .error e =>
          ⟨errResult ("Invalid duration format: " ++ e), none, [.getPod p.ns p.podName]⟩
        | .ok sinceTime =>
          let opts : LogOptions :=
            { container, follow := false, previous := p.previous,
              timestamps := p.timestamps, tailLines := p.lines, sinceTime }
          match o.streamLogs p.ns p.podName opts with
          | .error e =>
            ⟨errResult ("Failed to get logs: " ++ e), none,
             [.getPod p.ns p.podName, .streamLogs p.ns p.podName opts]⟩
          | .ok stream =>
            match processLogs env stream p.podName p.ns container p.parseLogs p.maxLines with
            | .error e =>
              ⟨errResult ("Failed to process logs: " ++ e), none,
               [.getPod p.ns p.podName, .streamLogs p.ns p.podName opts]⟩
            | .ok r =>
              ⟨okResult (renderJson (logResultJson r)), none,
               [.getPod p.ns p.podName, .streamLogs p.ns p.podName opts]⟩

/-- `Manager.GetIstioProxyLogs`: re-marshals its resolved arguments with
`container = "istio-proxy"` and delegates to `GetPodLogs`; an optional
log-level filter is only logged, never applied. -/
def GetIstioProxyLogs (env : Env) (o : Oracle) (args : RawArgs) : HandlerOut :=
  match decodeArgs decodeGetIstioProxyLogsObj args with
  | .error e => ⟨errResult ("Invalid parameters: " ++ e), none, []⟩
  | .ok p0 =>
    let p := defaultGetIstioProxyLogs p0
    let inner := Json.obj
      ([("pod_name", .str p.podName), ("namespace", .str p.ns),
        ("container", .str "istio-proxy"), ("lines", .num p.lines),
        ("timestamps", .bool true), ("parse_logs", .bool true)] ++
       (if p.since ≠ "" then [("since", Json.str p.since)] else []))
    GetPodLogs env o (some inner)

/-- The tail of `ExecPodCommand` after the container is resolved: the
command check, the exec, and the marshalled outcome map. -/
def execPodCommandRun (env : Env) (o : Oracle) (p : ExecPodCommandParams)
    (container : String) (tr : List ExtCall) : HandlerOut :=
  if p.command.isEmpty then
    ⟨errResult "Command is required", none, tr⟩
  else
    let execRes := o.execInPod p.ns p.podName container p.command
    let base :=
      [("command", Json.str (goJoin " " p.command)),
       ("container", Json.str container)]
    -- Go marshals this map[string]interface{} with sorted keys.
    let fields :=
      match execRes with
      | .error e =>
        base ++ [("error", Json.str e), ("namespace", Json.str p.ns),
                 ("pod", Json.str p.podName), ("success", Json.bool false),
                 ("timestamp", Json.str env.nowStr)]
      | .ok out =>
        base ++ [("namespace", Json.str p.ns), ("output", Json.str out),
                 ("pod", Json.str p.podName), ("success", Json.bool true),
                 ("timestamp", Json.str env.nowStr)]
    ⟨okResult (renderJson (Json.obj fields)), none,
     tr ++ [.execInPod p.ns p.podName container p.command]⟩

/-- `Manager.ExecPodCommand`. When the exec fails, the handler still
returns a NON-error result whose payload carries `success = false`. -/
def ExecPodCommand (env : Env) (o : Oracle) (args : RawArgs) : HandlerOut :=
  match decodeArgs decodeExecPodCommandObj args with
  | .error e => ⟨errResult ("Invalid parameters: " ++ e), none, []⟩
  | .ok p0 =>
    let p := { p0 with ns := if p0.ns = "" then "default" else p0.ns }
    if p.container = "" then
      match o.getPod p.ns p.podName with
      | .error e =>
        ⟨errResult ("Failed to get pod: " ++ e), none, [.getPod p.ns p.podName]⟩
      | .ok pod =>
        match pod.containers.head? with
        | none => ⟨errResult "No containers found in pod", none, [.getPod p.ns p.podName]⟩
        | some c => execPodCommandRun env o p c [.getPod p.ns p.podName]
    else execPodCommandRun env o p p.container []

/-! ### Helm helpers and Istio handlers -/

/-- `Manager.checkHelmAvailable`: `helm version --short` must run. -/
def checkHelmAvailable (o : Oracle) : Option String × List ExtCall :=
  match o.helm ["version", "--short"] with
  | (_, some e) => (some ("helm command not found or not working: " ++ e),
                    [.helm ["version", "--short"]])
  | (_, none) => (none, [.helm ["version", "--short"]])

/-- `Manager.addIstioHelmRepo`: add (tolerating "already exists" in the
output) then update the repository. -/
def addIstioHelmRepo (o : Oracle) : Except String Unit × List ExtCall :=
  let addArgs := ["repo", "add", "istio", "https://istio-release.storage.googleapis.com/charts"]
  let updArgs := ["repo", "update", "istio"]
  match o.helm addArgs with
  | (out1, some m1) =>
    if strContains out1 "already exists" then
      match o.helm updArgs with
      | (out2, some m2) =>
        (.error ("failed to update istio helm repo: " ++ m2 ++ ", output: " ++ out2),
         [.helm addArgs, .helm updArgs])
      | (_, none) => (.ok (), [.helm addArgs, .helm updArgs])
    else
      (.error ("failed to add istio helm repo: " ++ m1 ++ ", output: " ++ out1),
       [.helm addArgs])
  | (_, none) =>
    match o.helm updArgs with
    | (out2, some m2) =>
      (.error ("failed to update istio helm repo: " ++ m2 ++ ", output: " ++ out2),
       [.helm addArgs, .helm updArgs])
    | (_, none) => (.ok (), [.helm addArgs, .helm updArgs])

/-- The `--wait`/`--timeout` tail shared by every helm invocation. -/
def waitArgs (wait : Bool) (timeout : String) : List String :=
  if wait then ["--wait"] ++ (if timeout ≠ "" then ["--timeout", timeout] else [])
  else []

def versionArgs (version : String) : List String :=
  if version ≠ "" then ["--version", version] else []

/-- `--set-json key=value` flags for custom helm values. The source
iterates a Go map here, so the flag order is one possible enumeration. -/
def setJsonArgs (values : List (String × Json)) : List String :=
  values.flatMap (fun kv => ["--set-json", kv.1 ++ "=" ++ renderJson kv.2])

/-- Argument list of `installIstioBase`. -/
def istioBaseArgs (ns version : String) (wait : Bool) (timeout : String) : List String :=
  ["install", "istio-base", "istio/base", "--namespace", ns, "--create-namespace"]
  ++ versionArgs version ++ waitArgs wait timeout

def installIstioBase (o : Oracle) (ns version : String) (wait : Bool) (timeout : String) :
    Except String Unit × List ExtCall :=
  let a := istioBaseArgs ns version wait timeout
  match o.helm a with
  | (out, some e) =>
    (.error ("helm install istio-base failed: " ++ e ++ ", output: " ++ out), [.helm a])
  | (_, none) => (.ok (), [.helm a])

/-- Argument list of `installIstiod`. -/
def istiodArgs (ns version : String) (values : List (String × Json))
    (wait : Bool) (timeout : String) : List String :=
  ["install", "istiod", "istio/istiod", "--namespace", ns]
  ++ versionArgs version ++ waitArgs wait timeout
  ++ (if values.length > 0 then setJsonArgs values else [])

def installIstiod (o : Oracle) (ns version : String) (values : List (String × Json))
    (wait : Bool) (timeout : String) : Except String Unit × List ExtCall :=
  let a := istiodArgs ns version values wait timeout
  match o.helm a with
  | (out, some e) =>
    (.error ("helm install istiod failed: " ++ e ++ ", output: " ++ out), [.helm a])
  | (_, none) => (.ok (), [.helm a])

def istioGatewayArgs (ns version : String) (wait : Bool) (timeout : String) : List String :=
  ["install", "istio-ingress", "istio/gateway", "--namespace", ns, "--create-namespace"]
  ++ versionArgs version ++ waitArgs wait timeout

def installIstioGateway (o : Oracle) (ns version : String) (wait : Bool) (timeout : String) :
    Except String Unit × List ExtCall :=
  let a := istioGatewayArgs ns version wait timeout
  match o.helm a with
  | (out, some e) =>
    (.error ("helm install istio-ingress failed: " ++ e ++ ", output: " ++ out), [.helm a])
  | (_, none) => (.ok (), [.helm a])

def istioCNIArgs (ns version : String) (values : List (String × Json))
    (wait : Bool) (timeout : String) : List String :=
  ["install", "istio-cni", "istio/cni", "--namespace", ns]
  ++ versionArgs version ++ waitArgs wait timeout
  ++ (if values.length > 0 then setJsonArgs values else [])

def installIstioCNI (o : Oracle) (ns version : String) (values : List (String × Json))
    (wait : Bool) (timeout : String) : Except String Unit × List ExtCall :=
  let a := istioCNIArgs ns version values wait timeout
  match o.helm a with
  | (out, some e) =>
    (.error ("helm install istio-cni failed: " ++ e ++ ", output: " ++ out), [.helm a])
  | (_, none) => (.ok (), [.helm a])

/-- `uninstallIstioGateway`: a "not found" in the output is tolerated. -/
def uninstallIstioGateway (o : Oracle) (ns : String) (wait : Bool) (timeout : String) :
    Except String Unit × List ExtCall :=
  let a := ["uninstall", "istio-ingress", "--namespace", ns] ++ waitArgs wait timeout
  match o.helm a with
  | (out, some e) =>
    if strContains out "not found" then (.ok (), [.helm a])
    else (.error ("helm uninstall istio-ingress failed: " ++ e ++ ", output: " ++ out), [.helm a])
  | (_, none) => (.ok (), [.helm a])

def uninstallIstiod (o : Oracle) (ns : String) (wait : Bool) (timeout : String) :
    Except String Unit × List ExtCall :=
  let a := ["uninstall", "istiod", "--namespace", ns] ++ waitArgs wait timeout
  match o.helm a with
  | (out, some e) =>
    (.error ("helm uninstall istiod failed: " ++ e ++ ", output: " ++ out), [.helm a])
  | (_, none) => (.ok (), [.helm a])

def uninstallIstioBase (o : Oracle) (ns : String) (wait : Bool) (timeout : String) :
    Except String Unit × List ExtCall :=
  let a := ["uninstall", "istio-base", "--namespace", ns] ++ waitArgs wait timeout
  match o.helm a with
  | (out, some e) =>
    (.error ("helm uninstall istio-base failed: " ++ e ++ ", output: " ++ out), [.helm a])
  | (_, none) => (.ok (), [.helm a])

/-- `uninstallIstioCNI`: a "not found" in the output is tolerated. -/
def uninstallIstioCNI (o : Oracle) (ns : String) (wait : Bool) (timeout : String) :
    Except String Unit × List ExtCall :=
  let a := ["uninstall", "istio-cni", "--namespace", ns] ++ waitArgs wait timeout
  match o.helm a with
  | (out, some e) =>
    if strContains out "not found" then (.ok (), [.helm a])
    else (.error ("helm uninstall istio-cni failed: " ++ e ++ ", output: " ++ out), [.helm a])
  | (_, none) => (.ok (), [.helm a])

/-- `Manager.deleteIstioCRDs`. -/
def deleteIstioCRDs (o : Oracle) : Except String Unit × List ExtCall :=
  match o.kubectl ["get", "crd", "-oname"] with
  | (_, some e) => (.error ("failed to get CRDs: " ++ e), [.kubectl ["get", "crd", "-oname"]])
  | (out, none) =>
    let istioCRDs := ((goSplit out "\n").filter
      (fun l => strContains l "istio.io")).map goTrim
    if istioCRDs.length > 0 then
      let delArgs := ["delete"] ++ istioCRDs
      match o.kubectl delArgs with
      | (out2, some e) =>
        (.error ("failed to delete Istio CRDs: " ++ e ++ ", output: " ++ out2),
         [.kubectl ["get", "crd", "-oname"], .kubectl delArgs])
      | (_, none) => (.ok (), [.kubectl ["get", "crd", "-oname"], .kubectl delArgs])
    else (.ok (), [.kubectl ["get", "crd", "-oname"]])

/-- `Manager.getIstioHelmReleaseVersion`. The shell-out plus its JSON
decode are one collaborator consultation; the decode-failure branch of
the source is folded into the oracle's error result. -/
def getIstioHelmReleaseVersion (o : Oracle) (ns rel : String) :
    Except String String × List ExtCall :=
  let call := ExtCall.helm ["list", "--namespace", ns, "--filter", rel, "--output", "json"]
  match o.helmList ns rel with
  | .error e => (.error ("failed to get helm release info: " ++ e), [call])
  | .ok [] => (.error ("release " ++ rel ++ " not found"), [call])
  | .ok (r :: _) =>
    (.ok (if r.chart ≠ "" then r.chart
          else if r.appVersion ≠ "" then r.appVersion else "unknown"), [call])

structure CompStatus where
  name : String
  ready : Bool
  replicas : Int
  available : Int
  deriving DecidableEq, Repr

def compStatusJson (c : CompStatus) : Json :=
  .obj [("name", .str c.name), ("ready", .bool c.ready),
        ("replicas", .num c.replicas), ("available", .num c.available)]

structure IstioStatusRec where
  installed : Bool
  version : String
  components : List CompStatus
  ns : String
  issues : List String
  deriving DecidableEq, Repr

def istioStatusJson (s : IstioStatusRec) : Json :=
  objOpt [("installed", some (.bool s.installed)),
          ("version", if s.version = "" then none else some (.str s.version)),
          ("components", some (goSlice (s.components.map compStatusJson))),
          ("namespace", some (.str s.ns)),
          ("issues", if s.issues.isEmpty then none
                     else some (.arr (s.issues.map Json.str)))]

/-- `Manager.getIstioStatus`. The Go signature also returns an `error`
that is `nil` on every path, so the record is returned directly. -/
def getIstioStatus (o : Oracle) (ns : String) : IstioStatusRec × List ExtCall :=
  match o.getNamespace ns with
  | .notFound =>
    ({ installed := false, version := "", components := [], ns,
       issues := ["Istio namespace not found"] }, [.getNamespace ns])
  | _ =>
    -- CNI DaemonSet check
    let (cniComps, cniIssues, cniInstalled) :=
      match o.getDaemonSet ns "istio-cni-node" with
      | .ok ds =>
        let ready := ds.numberReady = ds.desiredNumberScheduled ∧ ds.desiredNumberScheduled > 0
        ([{ name := "istio-cni-node", ready := ready, replicas := ds.desiredNumberScheduled,
            available := ds.numberReady : CompStatus }],
         if ready then [] else ["istio-cni-node is not ready"], true)
      | .error _ => ([], [], false)
    -- the single component loop iteration, componentName = "istiod"
    let (istiodComps, istiodIssues, istiodInstalled) :=
      match o.listDeployments ns "app=istiod" with
      | .error e => ([], ["Failed to list istiod deployments: " ++ e], false)
      | .ok [] => ([{ name := "istiod", ready := false, replicas := 0,
                      available := 0 : CompStatus }], [], false)
      | .ok (d :: _) =>
        let ready := d.readyReplicas = d.replicas ∧ d.replicas > 0
        ([{ name := "istiod", ready := ready, replicas := d.replicas,
            available := d.availableReplicas : CompStatus }],
         if ready then [] else ["istiod is not ready"], true)
    let (verRes, verTrace) := getIstioHelmReleaseVersion o ns "istiod"
    let version := match verRes with | .ok v => v | .error _ => "unknown"
    ({ installed := cniInstalled ∨ istiodInstalled, version,
       components := cniComps ++ istiodComps, ns,
       issues := cniIssues ++ istiodIssues },
     [.getNamespace ns, .getDaemonSet ns "istio-cni-node", .listDeployments ns "app=istiod"]
     ++ verTrace)

/-- `Manager.CheckIstioStatus`. The handler's branch on a non-nil error
from `getIstioStatus` is dead code (the helper never returns one). -/
def CheckIstioStatus (_env : Env) (o : Oracle) (args : RawArgs) : HandlerOut :=
  match decodeArgs decodeNamespaceOnlyObj args with
  | .error e => ⟨errResult ("Invalid parameters: " ++ e), none, []⟩
  | .ok p0 =>
    let ns := if p0.ns = "" then "istio-system" else p0.ns
    let (st, tr) := getIstioStatus o ns
    ⟨okResult (renderJson (istioStatusJson st)), none, tr⟩

/-- The `pilot.cni.enabled = true` merge performed by `InstallIstio` when
CNI is requested. -/
def mergeCNIValues (values : List (String × Json)) : List (String × Json) :=
  match valLookup values "pilot" with
  | some (.obj pilotFs) =>
    match valLookup pilotFs "cni" with
    | some (.obj cniFs) =>
      setJson values "pilot" (.obj (setJson pilotFs "cni" (.obj (setJson cniFs "enabled" (.bool true)))))
    | some _ => values
    | none => setJson values "pilot" (.obj (setJson pilotFs "cni" (.obj [("enabled", .bool true)])))
  | some _ => values
  | none => values ++ [("pilot", .obj [("cni", .obj [("enabled", .bool true)])])]

/-- `Manager.InstallIstio`. -/
def InstallIstio (_env : Env) (o : Oracle) (args : RawArgs) : HandlerOut :=
  match decodeArgs decodeInstallIstioObj args with
  | .error e => ⟨errResult ("Invalid parameters: " ++ e), none, []⟩
  | .ok p0 =>
    let p := defaultInstallIstio p0
    match checkHelmAvailable o with
    | (some e, tr) =>
      ⟨errResult ("Helm is not available: " ++ e ++ ". Please install Helm to use this feature."),
       none, tr⟩
    | (none, tr0) =>
      match addIstioHelmRepo o with
      | (.error e, tr1) =>
        ⟨errResult ("Failed to add Istio Helm repository: " ++ e), none, tr0 ++ tr1⟩
      | (.ok _, tr1) =>
        let cniStep : Except String Unit × List ExtCall :=
          if p.installCNI then installIstioCNI o p.ns p.version p.cniValues p.wait p.timeout
          else (.ok (), [])
        match cniStep with
        | (.error e, tr2) =>
          ⟨errResult ("Failed to install Istio CNI: " ++ e), none, tr0 ++ tr1 ++ tr2⟩
        | (.ok _, tr2) =>
          match installIstioBase o p.ns p.version p.wait p.timeout with
          | (.error e, tr3) =>
            ⟨errResult ("Failed to install Istio base chart: " ++ e), none,
             tr0 ++ tr1 ++ tr2 ++ tr3⟩
          | (.ok _, tr3) =>
            let istiodValues := if p.installCNI then mergeCNIValues p.values else p.values
            match installIstiod o p.ns p.version istiodValues p.wait p.timeout with
            | (.error e, tr4) =>
              ⟨errResult ("Failed to install Istio discovery chart: " ++ e), none,
               tr0 ++ tr1 ++ tr2 ++ tr3 ++ tr4⟩
            | (.ok _, tr4) =>
              let message := "Istio successfully installed using Helm in namespace '" ++ p.ns ++ "'"
                ++ (if p.version ≠ "" then " (version: " ++ p.version ++ ")" else "")
                ++ (if p.installCNI then " with CNI node agent" else "")
              let (message, tr5) :=
                if p.installGateway then
                  match installIstioGateway o p.gatewayNamespace p.version p.wait p.timeout with
                  | (.error _, trg) => (message ++ ". Warning: Gateway installation failed.", trg)
                  | (.ok _, trg) =>
                    (message ++ ". Ingress gateway installed in namespace '"
                     ++ p.gatewayNamespace ++ "'.", trg)
                else (message, [])
              let (st, tr6) := getIstioStatus o p.ns
              let message :=
                if st.installed then message ++ " Istio control plane is ready."
                else message ++ " Use check_istio_status to monitor the deployment status."
              ⟨okResult message, none, tr0 ++ tr1 ++ tr2 ++ tr3 ++ tr4 ++ tr5 ++ tr6⟩

/-- `Manager.UninstallIstio`. -/
def UninstallIstio (_env : Env) (o : Oracle) (args : RawArgs) : HandlerOut :=
  match decodeArgs decodeUninstallIstioObj args with
  | .error e => ⟨errResult ("Invalid parameters: " ++ e), none, []⟩
  | .ok p0 =>
    let p := defaultUninstallIstio p0
    match checkHelmAvailable o with
    | (some e, tr) =>
      ⟨errResult ("Helm is not available: " ++ e ++ ". Please install Helm to use this feature."),
       none, tr⟩
    | (none, tr0) =>
      let (gwMsg, tr1) :=
        match uninstallIstioGateway o p.gatewayNamespace p.wait p.timeout with
        | (.error _, trg) => ("Warning: Gateway uninstall failed", trg)
        | (.ok _, trg) =>
          ("Gateway uninstalled from namespace '" ++ p.gatewayNamespace ++ "'", trg)
      match uninstallIstiod o p.ns p.wait p.timeout with
      | (.error e, tr2) =>
        ⟨errResult ("Failed to uninstall Istio discovery: " ++ e), none, tr0 ++ tr1 ++ tr2⟩
      | (.ok _, tr2) =>
        match uninstallIstioBase o p.ns p.wait p.timeout with
        | (.error e, tr3) =>
          ⟨errResult ("Failed to uninstall Istio base: " ++ e), none,
           tr0 ++ tr1 ++ tr2 ++ tr3⟩
        | (.ok _, tr3) =>
          let messages := [gwMsg, "Istio discovery (istiod) uninstalled", "Istio base uninstalled"]
          let (messages, tr4) :=
            if p.uninstallCNI then
              match uninstallIstioCNI o p.ns p.wait p.timeout with
              | (.error _, trc) => (messages ++ ["Warning: CNI uninstall failed"], trc)
              | (.ok _, trc) => (messages ++ ["Istio CNI uninstalled"], trc)
            else (messages, [])
          let (messages, tr5) :=
            if p.deleteCRDs then
              match deleteIstioCRDs o with
              | (.error _, trd) => (messages ++ ["Warning: Failed to delete Istio CRDs"], trd)
              | (.ok _, trd) => (messages ++ ["Istio CRDs deleted"], trd)
            else (messages, [])
          ⟨okResult ("Istio successfully uninstalled using Helm. "
                     ++ goJoin ". " messages), none,
           tr0 ++ tr1 ++ tr2 ++ tr3 ++ tr4 ++ tr5⟩

/-! ### Sail operator handlers -/

def addSailOperatorHelmRepo (o : Oracle) : Except String Unit × List ExtCall :=
  let addArgs := ["repo", "add", "sail-operator", "https://istio-ecosystem.github.io/sail-operator"]
  let updArgs := ["repo", "update", "sail-operator"]
  match o.helm addArgs with
  | (out1, some m1) =>
    if strContains out1 "already exists" then
      match o.helm updArgs with
      | (out2, some m2) =>
        (.error ("failed to update sail-operator helm repo: " ++ m2 ++ ", output: " ++ out2),
         [.helm addArgs, .helm updArgs])
      | (_, none) => (.ok (), [.helm addArgs, .helm updArgs])
    else
      (.error ("failed to add sail-operator helm repo: " ++ m1 ++ ", output: " ++ out1),
       [.helm addArgs])
  | (_, none) =>
    match o.helm updArgs with
    | (out2, some m2) =>
      (.error ("failed to update sail-operator helm repo: " ++ m2 ++ ", output: " ++ out2),
       [.helm addArgs, .helm updArgs])
    | (_, none) => (.ok (), [.helm addArgs, .helm updArgs])

def sailInstallArgs (ns releaseName version : String) (values : List (String × Json))
    (wait : Bool) (timeout : String) : List String :=
  ["install", releaseName, "sail-operator/sail-operator", "--namespace", ns, "--create-namespace"]
  ++ versionArgs version ++ waitArgs wait timeout
  ++ (if values.length > 0 then setJsonArgs values else [])

def installSailOperatorWithHelm (o : Oracle) (ns releaseName version : String)
    (values : List (String × Json)) (wait : Bool) (timeout : String) :
    Except String Unit × List ExtCall :=
  let a := sailInstallArgs ns releaseName version values wait timeout
  match o.helm a with
  | (out, some e) =>
    (.error ("helm install failed: " ++ e ++ ", output: " ++ out), [.helm a])
  | (_, none) => (.ok (), [.helm a])

def uninstallSailOperatorWithHelm (o : Oracle) (ns releaseName : String)
    (wait : Bool) (timeout : String) : Except String Unit × List ExtCall :=
  let a := ["uninstall", releaseName, "--namespace", ns] ++ waitArgs wait timeout
  match o.helm a with
  | (out, some e) =>
    (.error ("helm uninstall failed: " ++ e ++ ", output: " ++ out), [.helm a])
  | (_, none) => (.ok (), [.helm a])

structure SailStatusRec where
  installed : Bool
  version : String
  ns : String
  ready : Bool
  replicas : Int
  available : Int
  issues : List String
  deriving DecidableEq, Repr

def sailStatusJson (s : SailStatusRec) : Json :=
  objOpt [("installed", some (.bool s.installed)),
          ("version", if s.version = "" then none else some (.str s.version)),
          ("namespace", some (.str s.ns)),
          ("ready", some (.bool s.ready)),
          ("replicas", some (.num s.replicas)),
          ("available", some (.num s.available)),
          ("issues", if s.issues.isEmpty then none
                     else some (.arr (s.issues.map Json.str)))]

/-- `Manager.getSailOperatorStatus`: three label selectors are tried in
order; the first deployment found wins. -/
def getSailOperatorStatus (o : Oracle) (ns : String) :
    Except String SailStatusRec × List ExtCall :=
  let finish (d : DeployStatus) (tr : List ExtCall) :
      Except String SailStatusRec × List ExtCall :=
    let ready := d.readyReplicas = d.replicas ∧ d.replicas > 0
    let issues := if ready then [] else ["Sail operator is not ready"]
    let imgVersion :=
      match d.image with
      | some image =>
        if strContains image ":" then ((goSplit image ":").getLastD "unknown") else "unknown"
      | none => "unknown"
    let (verRes, verTrace) := getIstioHelmReleaseVersion o ns "sail-operator"
    let version := match verRes with | .ok v => v | .error _ => imgVersion
    (.ok { installed := true, version, ns, ready, replicas := d.replicas,
           available := d.availableReplicas, issues }, tr ++ verTrace)
  match o.listDeployments ns "app.kubernetes.io/component=sail-operator" with
  | .error e =>
    (.error ("failed to list deployments: " ++ e),
     [.listDeployments ns "app.kubernetes.io/component=sail-operator"])
  | .ok l1 =>
    let t1 := [ExtCall.listDeployments ns "app.kubernetes.io/component=sail-operator"]
    match l1 with
    | d :: _ => finish d t1
    | [] =>
      match o.listDeployments ns "app.kubernetes.io/name=sail-operator" with
      | .error e =>
        (.error ("failed to list deployments with second selector: " ++ e),
         t1 ++ [.listDeployments ns "app.kubernetes.io/name=sail-operator"])
      | .ok l2 =>
        let t2 := t1 ++ [ExtCall.listDeployments ns "app.kubernetes.io/name=sail-operator"]
        match l2 with
        | d :: _ => finish d t2
        | [] =>
          match o.listDeployments ns "app=sail-operator" with
          | .error e =>
            (.error ("failed to list deployments with fallback selector: " ++ e),
             t2 ++ [.listDeployments ns "app=sail-operator"])
          | .ok l3 =>
            let t3 := t2 ++ [ExtCall.listDeployments ns "app=sail-operator"]
            match l3 with
            | d :: _ => finish d t3
            | [] =>
              (.ok { installed := false, version := "", ns, ready := false,
                     replicas := 0, available := 0,
                     issues := ["Sail operator deployment not found"] }, t3)

/-- `Manager.InstallSailOperator`. -/
def InstallSailOperator (_env : Env) (o : Oracle) (args : RawArgs) : HandlerOut :=
  match decodeArgs decodeInstallSailObj args with
  | .error e => ⟨errResult ("Invalid parameters: " ++ e), none, []⟩
  | .ok p0 =>
    let p := defaultInstallSail p0
    match checkHelmAvailable o with
    | (some e, tr) =>
      ⟨errResult ("Helm is not available: " ++ e ++ ". Please install Helm to use this feature."),
       none, tr⟩
    | (none, tr0) =>
      match addSailOperatorHelmRepo o with
      | (.error e, tr1) =>
        ⟨errResult ("Failed to add Sail operator Helm repository: " ++ e), none, tr0 ++ tr1⟩
      | (.ok _, tr1) =>
        match installSailOperatorWithHelm o p.ns p.releaseName p.version p.values p.wait p.timeout with
        | (.error e, tr2) =>
          ⟨errResult ("Failed to install Sail operator with Helm: " ++ e), none,
           tr0 ++ tr1 ++ tr2⟩
        | (.ok _, tr2) =>
          let (stRes, tr3) := getSailOperatorStatus o p.ns
          let message := "Sail operator successfully installed using Helm in namespace '"
            ++ p.ns ++ "' with release name '" ++ p.releaseName ++ "'"
            ++ (if p.version ≠ "" then " (version: " ++ p.version ++ ")" else "")
          let message :=
            match stRes with
            | .ok st =>
              if st.ready then message ++ ". Operator is ready and running."
              else message ++ ". Use check_sail_status to monitor the deployment status."
            | .error _ => message ++ ". Use check_sail_status to monitor the deployment status."
          ⟨okResult message, none, tr0 ++ tr1 ++ tr2 ++ tr3⟩

/-- `Manager.UninstallSailOperator`. -/
def UninstallSailOperator (_env : Env) (o : Oracle) (args : RawArgs) : HandlerOut :=
  match decodeArgs decodeUninstallSailObj args with
  | .error e => ⟨errResult ("Invalid parameters: " ++ e), none, []⟩
  | .ok p0 =>
    let p := defaultUninstallSail p0
    match checkHelmAvailable o with
    | (some e, tr) =>
      ⟨errResult ("Helm is not available: " ++ e ++ ". Please install Helm to use this feature."),
       none, tr⟩
    | (none, tr0) =>
      match uninstallSailOperatorWithHelm o p.ns p.releaseName p.wait p.timeout with
      | (.error e, tr1) =>
        ⟨errResult ("Failed to uninstall Sail operator with Helm: " ++ e), none, tr0 ++ tr1⟩
      | (.ok _, tr1) =>
        ⟨okResult ("Sail operator successfully uninstalled from namespace '" ++ p.ns
                   ++ "' (release: " ++ p.releaseName ++ ")"), none, tr0 ++ tr1⟩

/-- `Manager.CheckSailStatus`. -/
def CheckSailStatus (_env : Env) (o : Oracle) (args : RawArgs) : HandlerOut :=
  match decodeArgs decodeNamespaceOnlyObj args with
  | .error e => ⟨errResult ("Invalid parameters: " ++ e), none, []⟩
  | .ok p0 =>
    let ns := if p0.ns = "" then "sail-operator" else p0.ns
    match getSailOperatorStatus o ns with
    | (.error e, tr) =>
      ⟨errResult ("Failed to get Sail operator status: " ++ e), none, tr⟩
    | (.ok st, tr) =>
      ⟨okResult (renderJson (sailStatusJson st)), none, tr⟩

/-! ### Sample application handlers -/

/-- `Manager.createOrUpdateNamespace`: create, and on "already exists"
merge the labels into the existing namespace and update it. -/
def createOrUpdateNamespace (o : Oracle) (name : String) (istioInjection : Bool) :
    Except String Unit × List ExtCall :=
  let labels := if istioInjection then [("istio-injection", "enabled")] else []
  match o.createNamespace name labels with
  | .ok => (.ok (), [.createNamespace name labels])
  | .err e => (.error e, [.createNamespace name labels])
  | .alreadyExists =>
    match o.nsLabels name with
    | .error ge => (.error ge, [.createNamespace name labels, .getNamespace name])
    | .ok existing =>
      let merged := labels.foldl (fun acc kv => setStr acc kv.1 kv.2) existing
      match o.updateNamespace name merged with
      | some ue =>
        (.error ("failed to update namespace labels: " ++ ue),
         [.createNamespace name labels, .getNamespace name, .updateNamespace name merged])
      | none =>
        (.ok (), [.createNamespace name labels, .getNamespace name, .updateNamespace name merged])

/-- `createSleepServiceAccount` / `createHttpbinServiceAccount`: an
"already exists" outcome is tolerated. -/
def createServiceAccountStep (o : Oracle) (ns name : String) :
    Except String Unit × List ExtCall :=
  match o.createServiceAccount ns name with
  | .ok => (.ok (), [.createServiceAccount ns name])
  | .alreadyExists => (.ok (), [.createServiceAccount ns name])
  | .err e => (.error ("failed to create service account: " ++ e), [.createServiceAccount ns name])

/-- `createSleepDeployment` / `createHttpbinDeployment`. -/
def createDeploymentStep (o : Oracle) (ns name : String) (replicas : Int) :
    Except String Unit × List ExtCall :=
  match o.createDeployment ns name replicas with
  | .ok => (.ok (), [.createDeployment ns name replicas])
  | .alreadyExists => (.ok (), [.createDeployment ns name replicas])
  | .err e => (.error ("failed to create deployment: " ++ e), [.createDeployment ns name replicas])

/-- `createHttpbinService`. -/
def createHttpbinServiceStep (o : Oracle) (ns : String) :
    Except String Unit × List ExtCall :=
  match o.createService ns "httpbin" with
  | .ok => (.ok (), [.createService ns "httpbin"])
  | .alreadyExists => (.ok (), [.createService ns "httpbin"])
  | .err e => (.error ("failed to create service: " ++ e), [.createService ns "httpbin"])

/-- `Manager.DeploySleepApp`. -/
def DeploySleepApp (_env : Env) (o : Oracle) (args : RawArgs) : HandlerOut :=
  match decodeArgs decodeDeploySleepObj args with
  | .error e => ⟨errResult ("Invalid parameters: " ++ e), none, []⟩
  | .ok p0 =>
    let p := defaultDeploySleep p0
    match createOrUpdateNamespace o p.ns p.istioInjection with
    | (.error e, tr1) =>
      ⟨errResult ("Failed to create/update namespace: " ++ e), none, tr1⟩
    | (.ok _, tr1) =>
      match createServiceAccountStep o p.ns "sleep" with
      | (.error e, tr2) =>
        ⟨errResult ("Failed to create service account: " ++ e), none, tr1 ++ tr2⟩
      | (.ok _, tr2) =>
        match createDeploymentStep o p.ns "sleep" p.replicas with
        | (.error e, tr3) =>
          ⟨errResult ("Failed to create deployment: " ++ e), none, tr1 ++ tr2 ++ tr3⟩
        | (.ok _, tr3) =>
          ⟨okResult ("Sleep app deployment initiated in namespace '" ++ p.ns ++ "' with "
                     ++ renderInt p.replicas ++ " replicas and Istio injection enabled"),
           none, tr1 ++ tr2 ++ tr3⟩

/-- `Manager.DeployHttpbinApp`. -/
def DeployHttpbinApp (_env : Env) (o : Oracle) (args : RawArgs) : HandlerOut :=
  match decodeArgs decodeDeployHttpbinObj args with
  | .error e => ⟨errResult ("Invalid parameters: " ++ e), none, []⟩
  | .ok p0 =>
    let p := defaultDeployHttpbin p0
    match createOrUpdateNamespace o p.ns p.istioInjection with
    | (.error e, tr1) =>
      ⟨errResult ("Failed to create/update namespace: " ++ e), none, tr1⟩
    | (.ok _, tr1) =>
      match createServiceAccountStep o p.ns "httpbin" with
      | (.error e, tr2) =>
        ⟨errResult ("Failed to create service account: " ++ e), none, tr1 ++ tr2⟩
      | (.ok _, tr2) =>
        match createDeploymentStep o p.ns "httpbin" p.replicas with
        | (.error e, tr3) =>
          ⟨errResult ("Failed to create deployment: " ++ e), none, tr1 ++ tr2 ++ tr3⟩
        | (.ok _, tr3) =>
          let svcStep : Except String Unit × List ExtCall :=
            if p.exposeService then createHttpbinServiceStep o p.ns else (.ok (), [])
          match svcStep with
          | (.error e, tr4) =>
            ⟨errResult ("Failed to create service: " ++ e), none, tr1 ++ tr2 ++ tr3 ++ tr4⟩
          | (.ok _, tr4) =>
            ⟨okResult ("Httpbin app deployment initiated in namespace '" ++ p.ns ++ "' with "
                       ++ renderInt p.replicas
                       ++ " replicas, Istio injection enabled, and service exposed"),
             none, tr1 ++ tr2 ++ tr3 ++ tr4⟩

/-- `Manager.UndeploySleepApp`: delete failures are only logged; the
handler always returns the success message. -/
def UndeploySleepApp (_env : Env) (o : Oracle) (args : RawArgs) : HandlerOut :=
  match decodeArgs decodeNamespaceOnlyObj args with
  | .error e => ⟨errResult ("Invalid parameters: " ++ e), none, []⟩
  | .ok p0 =>
    let ns := if p0.ns = "" then "default" else p0.ns
    -- both deletes always happen; their outcomes are only logged
    ⟨okResult ("Sleep app removal initiated from namespace '" ++ ns ++ "'"), none,
     [.deleteDeployment ns "sleep", .deleteServiceAccount ns "sleep"]⟩

/-- `Manager.UndeployHttpbinApp`: same structure with a service delete. -/
def UndeployHttpbinApp (_env : Env) (o : Oracle) (args : RawArgs) : HandlerOut :=
  match decodeArgs decodeNamespaceOnlyObj args with
  | .error e => ⟨errResult ("Invalid parameters: " ++ e), none, []⟩
  | .ok p0 =>
    let ns := if p0.ns = "" then "default" else p0.ns
    ⟨okResult ("Httpbin app removal initiated from namespace '" ++ ns ++ "'"), none,
     [.deleteDeployment ns "httpbin", .deleteService ns "httpbin",
      .deleteServiceAccount ns "httpbin"]⟩

/-! ### Connectivity testing handlers -/

structure PodInfoRec where
  name : String
  ns : String
  ip : String
  node : String
  deriving DecidableEq, Repr

/-- Marshalled `PodInfo`: tags are `name`, `namespace`, `ip,omitempty`,
`node,omitempty`. -/
def podInfoJson (p : PodInfoRec) : Json :=
  objOpt [("name", some (.str p.name)),
          ("namespace", some (.str p.ns)),
          ("ip", if p.ip = "" then none else some (.str p.ip)),
          ("node", if p.node = "" then none else some (.str p.node))]

structure ConnTestResult where
  source : PodInfoRec
  destination : PodInfoRec
  success : Bool
  statusCode : Int
  response : String
  error : String
  duration : String
  command : String
  timestamp : String
  deriving DecidableEq, Repr

def connTestResultJson (r : ConnTestResult) : Json :=
  objOpt [("source", some (podInfoJson r.source)),
          ("destination", some (podInfoJson r.destination)),
          ("success", some (.bool r.success)),
          ("status_code", if r.statusCode = 0 then none else some (.num r.statusCode)),
          ("response", if r.response = "" then none else some (.str r.response)),
          ("error", if r.error = "" then none else some (.str r.error)),
          ("duration", if r.duration = "" then none else some (.str r.duration)),
          ("command", some (.str r.command)),
          ("timestamp", some (.str r.timestamp))]

/-- The command `TestConnectivity` builds for http/https. -/
def curlCommand (protocol targetService : String) (targetPort : Int)
    (path method : String) (timeout : Int) : List String :=
  let url := protocol ++ "://" ++ targetService ++ ":" ++ renderInt targetPort ++ path
  ["curl", "-s", "-w", "\\nHTTP_CODE:%\x7bhttp_code\x7d\\nTIME_TOTAL:%\x7btime_total\x7d\\n",
   "-X", method, "--connect-timeout", renderInt timeout, url]

/-- The command `TestConnectivity` builds for tcp. -/
def ncCommand (targetService : String) (targetPort timeout : Int) : List String :=
  ["nc", "-z", "-v", "-w", renderInt timeout, targetService, renderInt targetPort]

/-- The success/status-code update applied to an http/https exec output:
`Success` stays `true` unless a status code is parsed, in which case
success means `200 <= code < 400`. -/
def httpOutcome (out : String) : Bool × Int :=
  match parseHttpCode out with
  | some code => (decide (200 ≤ code ∧ code < 400), code)
  | none => (true, 0)

/-- `Manager.TestConnectivity`. -/
def TestConnectivity (env : Env) (o : Oracle) (args : RawArgs) : HandlerOut :=
  match decodeArgs decodeTestConnectivityObj args with
  | .error e => ⟨errResult ("Invalid parameters: " ++ e), none, []⟩
  | .ok praw =>
    if praw.sourcePod = "" then
      ⟨errResult "source_pod is required", none, []⟩
    else if praw.targetService = "" then
      ⟨errResult "target_service is required", none, []⟩
    else if praw.targetPort = 0 then
      ⟨errResult "target_port is required", none, []⟩
    else
      let p := defaultTestConnectivity praw
      match o.getPod p.sourceNamespace p.sourcePod with
      | .error e =>
        ⟨errResult ("Failed to get source pod: " ++ e), none,
         [.getPod p.sourceNamespace p.sourcePod]⟩
      | .ok sourcePod =>
        let commandRes : Option (List String) :=
          if p.protocol = "http" ∨ p.protocol = "https" then
            some (curlCommand p.protocol p.targetService p.targetPort p.path p.method p.timeout)
          else if p.protocol = "tcp" then
            some (ncCommand p.targetService p.targetPort p.timeout)
          else none
        match commandRes with
        | none =>
          ⟨errResult ("Unsupported protocol: " ++ p.protocol), none,
           [.getPod p.sourceNamespace p.sourcePod]⟩
        | some command =>
          let execRes := o.execInPod p.sourceNamespace p.sourcePod "sleep" command
          let base : ConnTestResult :=
            { source := { name := sourcePod.name, ns := sourcePod.ns,
                          ip := sourcePod.podIP, node := sourcePod.nodeName }
              destination := { name := p.targetService, ns := "",
                               ip := p.targetService, node := "" }
              success := false, statusCode := 0, response := "", error := ""
              duration := env.durStr
              command := goJoin " " command
              timestamp := env.nowStr }
          let r :=
            match execRes with
            | .error e => { base with success := false, error := e }
            | .ok out =>
              if p.protocol = "http" ∨ p.protocol = "https" then
                let (succ, code) := httpOutcome out
                { base with success := succ, statusCode := code, response := out }
              else
                { base with success := true, response := out }
          let status := if r.success then "SUCCESS" else "FAILED"
          let summary := "Connectivity test from " ++ r.source.name ++ " to "
            ++ r.destination.name ++ ": " ++ status
          -- map[string]interface{} marshals with sorted keys: results < summary
          let resultData := Json.obj
            [("results", .arr [connTestResultJson r]), ("summary", .str summary)]
          ⟨okResult (renderJson resultData), none,
           [.getPod p.sourceNamespace p.sourcePod,
            .execInPod p.sourceNamespace p.sourcePod "sleep" command]⟩

/-- The curl command `TestSleepToHttpbin` builds per endpoint. -/
def sleepHttpbinCommand (serviceHost : String) (servicePort : Int)
    (endpoint : String) (timeout : Int) : List String :=
  let url := "http://" ++ serviceHost ++ ":" ++ renderInt servicePort ++ endpoint
  ["curl", "-s", "-w", "\\nHTTP_CODE:%\x7bhttp_code\x7d\\nTIME_TOTAL:%\x7btime_total\x7d\\n",
   "--connect-timeout", renderInt timeout, url]

/-- `Manager.TestSleepToHttpbin`. -/
def TestSleepToHttpbin (env : Env) (o : Oracle) (args : RawArgs) : HandlerOut :=
  match decodeArgs decodeTestSleepToHttpbinObj args with
  | .error e => ⟨errResult ("Invalid parameters: " ++ e), none, []⟩
  | .ok p0 =>
    let p := defaultTestSleepToHttpbin p0
    match o.listPods p.sourceNamespace "app=sleep" with
    | .error e =>
      ⟨errResult ("Failed to list sleep pods: " ++ e), none,
       [.listPods p.sourceNamespace "app=sleep"]⟩
    | .ok [] =>
      ⟨errResult "No sleep pods found", none, [.listPods p.sourceNamespace "app=sleep"]⟩
    | .ok (sleepPod :: _) =>
      match o.getService p.targetNamespace "httpbin" with
      | .error e =>
        ⟨errResult ("Failed to get httpbin service: " ++ e), none,
         [.listPods p.sourceNamespace "app=sleep", .getService p.targetNamespace "httpbin"]⟩
      | .ok httpbinService =>
        let serviceHost := "httpbin." ++ p.targetNamespace ++ ".svc.cluster.local"
        let mkResult (endpoint : String) : ConnTestResult × ExtCall :=
          let command := sleepHttpbinCommand serviceHost 8000 endpoint p.timeout
          let execRes := o.execInPod sleepPod.ns sleepPod.name "sleep" command
          let base : ConnTestResult :=
            { source := { name := sleepPod.name, ns := sleepPod.ns,
                          ip := sleepPod.podIP, node := sleepPod.nodeName }
              destination := { name := "httpbin", ns := p.targetNamespace,
                               ip := httpbinService.clusterIP, node := "" }
              success := false, statusCode := 0, response := "", error := ""
              duration := env.durStr
              command := goJoin " " command
              timestamp := env.nowStr }
          let r :=
            match execRes with
            | .error e => { base with success := false, error := e }
            | .ok out =>
              let (succ, code) := httpOutcome out
              { base with success := succ, statusCode := code, response := out }
          (r, .execInPod sleepPod.ns sleepPod.name "sleep" command)
        let pairs := p.testEndpoints.map mkResult
        let results := pairs.map (fun pr => pr.1)
        let successful := (results.filter (fun r => r.success)).length
        let summary := "Sleep to Httpbin connectivity test completed: "
          ++ renderInt successful ++ "/" ++ renderInt results.length ++ " tests successful"
        let output := Json.obj
          [("results", goSlice (results.map connTestResultJson)), ("summary", .str summary)]
        ⟨okResult (renderJson output), none,
         [.listPods p.sourceNamespace "app=sleep", .getService p.targetNamespace "httpbin"]
         ++ pairs.map (fun pr => pr.2)⟩

/-! ### Network debugging handlers -/

/-- `Manager.getIptablesWithDebug`. The bounded time-based polling loop
for the ephemeral container's logs is abstracted into the final observed
`(output, error)` pair the loop settles on (`Oracle.debugLogs`). -/
def getIptablesWithDebug (env : Env) (o : Oracle) (ns pod : String)
    (iptablesArgs : List String) : Except String String × List ExtCall :=
  let debugContainerName := "debug-iptables-" ++ renderInt env.nowUnix
  let kubectlArgs :=
    ["debug", pod, "-n", ns, "--image=istio/base", "--profile=sysadmin", "--quiet",
     "--attach=false", "--stdin=false", "-c", debugContainerName, "--", "iptables-nft"]
    ++ iptablesArgs
  match o.kubectl kubectlArgs with
  | (out, some e) =>
    (.error ("failed to create ephemeral container: " ++ e ++ ", output: " ++ out),
     [.kubectl kubectlArgs])
  | (_, none) =>
    match o.debugLogs pod ns debugContainerName with
    | (lout, some e) =>
      (.error ("failed to get logs from ephemeral container after 30s: " ++ e
               ++ ", output: " ++ lout),
       [.kubectl kubectlArgs, .kubectlLogs pod ns debugContainerName])
    | (lout, none) =>
      (.ok lout, [.kubectl kubectlArgs, .kubectlLogs pod ns debugContainerName])

/-- `Manager.GetIptablesRules`. -/
def GetIptablesRules (env : Env) (o : Oracle) (args : RawArgs) : HandlerOut :=
  match decodeArgs decodeGetIptablesRulesObj args with
  | .error e => ⟨errResult ("Invalid parameters: " ++ e), none, []⟩
  | .ok p0 =>
    let p := { p0 with
      ns := if p0.ns = "" then "default" else p0.ns
      tables := if p0.tables.isEmpty then ["filter", "nat", "mangle"] else p0.tables }
    match o.getPod p.ns p.podName with
    | .error e =>
      ⟨errResult ("Failed to get pod: " ++ e), none, [.getPod p.ns p.podName]⟩
    | .ok pod =>
      let container :=
        if p.container = "" then
          if pod.containers.contains "istio-proxy" then "istio-proxy"
          else match pod.containers.head? with
            | some c => c
            | none => "istio-proxy"
        else p.container
      let step (acc : List (String × String) × List ExtCall) (table : String) :
          List (String × String) × List ExtCall :=
        let iptablesArgs :=
          if p.verbose then ["-t", table, "-L", "-v", "-n", "--line-numbers"]
          else ["-t", table, "-L", "-n"]
        match getIptablesWithDebug env o p.ns p.podName iptablesArgs with
        | (.error e, tr) => (setStr acc.1 table ("Error: " ++ e), acc.2 ++ tr)
        | (.ok out, tr) => (setStr acc.1 table out, acc.2 ++ tr)
      let (tables, tr) := p.tables.foldl step ([], [])
      let resultJson := Json.obj
        [("pod", .str p.podName), ("namespace", .str p.ns), ("container", .str container),
         ("tables", strMapJson tables), ("timestamp", .str env.nowStr)]
      ⟨okResult (renderJson resultJson), none, [.getPod p.ns p.podName] ++ tr⟩

/-- `Manager.policyAppliesToPod`. -/
def policyAppliesToPod (sel : LabelSel) (podLabels : List (String × String)) : Bool :=
  if sel.matchLabels.isEmpty ∧ sel.matchExpressions.isEmpty then true
  else
    let labelsOk := sel.matchLabels.all
      (fun kv => (strLookup podLabels kv.1).getD "" == kv.2)
    let exprOk := sel.matchExpressions.all (fun expr =>
      let podValue := strLookup podLabels expr.key
      match expr.op with
      | .opIn =>
        match podValue with
        | none => false
        | some v => expr.values.contains v
      | .opNotIn =>
        match podValue with
        | none => true
        | some v => !(expr.values.contains v)
      | .opExists => podValue.isSome
      | .opDoesNotExist => podValue.isNone)
    labelsOk && exprOk

/-- `Manager.GetNetworkPolicies`. -/
def GetNetworkPolicies (_env : Env) (o : Oracle) (args : RawArgs) : HandlerOut :=
  match decodeArgs decodeGetNetworkPoliciesObj args with
  | .error e => ⟨errResult ("Invalid parameters: " ++ e), none, []⟩
  | .ok p0 =>
    let p := { p0 with ns := if p0.ns = "" then "default" else p0.ns }
    match o.listNetPols p.ns p.labelSelector with
    | .error e =>
      ⟨errResult ("Failed to list network policies: " ++ e), none,
       [.listNetPols p.ns p.labelSelector]⟩
    | .ok policies =>
      -- pod label fetch for filtering; a failure only logs and disables filtering
      let (podLabels, tr1) :=
        if p.podName ≠ "" then
          match o.getPod p.ns p.podName with
          | .error _ => (none, [ExtCall.getPod p.ns p.podName])
          | .ok pod => (pod.labels, [ExtCall.getPod p.ns p.podName])
        else (none, [])
      let keep (pol : NetPol) : Bool :=
        match podLabels with
        | some pl => if p.podName ≠ "" then policyAppliesToPod pol.podSelector pl else true
        | none => true
      let infos := (policies.filter keep).map (fun pol =>
        Json.obj [("name", .str pol.name), ("namespace", .str pol.ns),
                  ("spec", pol.specJson), ("status", .str "active")])
      -- map[string]interface{} marshals with sorted keys:
      -- count < filtered_for_pod < namespace < policies
      let fields :=
        [("count", Json.num (infos.length : Int))]
        ++ (if p.podName ≠ "" then [("filtered_for_pod", Json.str p.podName)] else [])
        ++ [("namespace", Json.str p.ns), ("policies", goSlice infos)]
      ⟨okResult (renderJson (Json.obj fields)), none,
       [.listNetPols p.ns p.labelSelector] ++ tr1⟩

/-- `Manager.parseTracerouteOutput`. -/
def parseTracerouteOutput (out : String) : List String :=
  ((goSplit out "\n").map goTrim).filterMap (fun line =>
    if line = "" ∨ goHasPre "traceroute" line ∨ goHasPre "tracepath" line then none
    else
      let fields := goFields line
      match fields with
      | f0 :: f1 :: rest =>
        some (f0 ++ " " ++ f1 ++ (match rest with
          | f2 :: _ => " (" ++ f2 ++ ")"
          | [] => ""))
      | _ => none)

/-- `Manager.addNetworkDiagnostics`: best-effort `ip route` / `ip addr`
appended to the path; this helper always returns a nil error. -/
def addNetworkDiagnostics (o : Oracle) (ns pod : String) (path : List String) :
    List String × List ExtCall :=
  let (p1, t1) :=
    match o.execInPod ns pod "sleep" ["ip", "route"] with
    | .ok out =>
      (path ++ ["=== Routing Table ==="]
        ++ ((goSplit out "\n").filter (fun (l : String) => goTrim l ≠ "")).map (fun l => "route: " ++ l),
       [ExtCall.execInPod ns pod "sleep" ["ip", "route"]])
    | .error _ => (path, [ExtCall.execInPod ns pod "sleep" ["ip", "route"]])
  let (p2, t2) :=
    match o.execInPod ns pod "sleep" ["ip", "addr"] with
    | .ok out =>
      (p1 ++ ["=== Network Interfaces ==="]
        ++ ((goSplit out "\n").filter
             (fun (l : String) => goTrim l ≠ "" ∧ (strContains l "inet" ∨ strContains l "link"))).map
           (fun l => "interface: " ++ l),
       [ExtCall.execInPod ns pod "sleep" ["ip", "addr"]])
    | .error _ => (p1, [ExtCall.execInPod ns pod "sleep" ["ip", "addr"]])
  (p2, t1 ++ t2)

def networkTraceJson (source destination : PodInfoRec) (path : List String)
    (success : Bool) (issues : List String) (timestamp : String) : Json :=
  objOpt [("source", some (podInfoJson source)),
          ("destination", some (podInfoJson destination)),
          ("path", some (goSlice (path.map Json.str))),
          ("success", some (.bool success)),
          ("issues", if issues.isEmpty then none else some (.arr (issues.map Json.str))),
          ("timestamp", some (.str timestamp))]

/-- The tail of `TraceNetworkPath` once the target is resolved: the
traceroute (with tracepath fallback), parsing, and diagnostics. -/
def traceNetworkPathRun (env : Env) (o : Oracle) (p : TraceNetworkPathParams)
    (source : PodInfoRec) (targetHost : String) (targetInfo : PodInfoRec)
    (tr0 : List ExtCall) : HandlerOut :=
  let command := ["traceroute", "-n", "-m", renderInt p.maxHops, targetHost]
    ++ (if p.targetPort > 0 then ["-p", renderInt p.targetPort] else [])
  let (execRes, tr1) :=
    match o.execInPod p.sourceNamespace p.sourcePod "sleep" command with
    | .ok out => (Except.ok out,
                  [ExtCall.execInPod p.sourceNamespace p.sourcePod "sleep" command])
    | .error _ =>
      -- fall back to tracepath
      match o.execInPod p.sourceNamespace p.sourcePod "sleep" ["tracepath", targetHost] with
      | .ok out => (Except.ok out,
                    [ExtCall.execInPod p.sourceNamespace p.sourcePod "sleep" command,
                     ExtCall.execInPod p.sourceNamespace p.sourcePod "sleep"
                       ["tracepath", targetHost]])
      | .error e => (Except.error e,
                     [ExtCall.execInPod p.sourceNamespace p.sourcePod "sleep" command,
                      ExtCall.execInPod p.sourceNamespace p.sourcePod "sleep"
                        ["tracepath", targetHost]])
  let (success, path0, issues0) :=
    match execRes with
    | .error e => (false, [], ["Traceroute failed: " ++ e])
    | .ok out => (true, parseTracerouteOutput out, [])
  let (path1, tr2) := addNetworkDiagnostics o p.sourceNamespace p.sourcePod path0
  ⟨okResult (renderJson (networkTraceJson source targetInfo path1 success issues0
                          env.nowStr)),
   none, tr0 ++ tr1 ++ tr2⟩

/-- `Manager.TraceNetworkPath`. -/
def TraceNetworkPath (env : Env) (o : Oracle) (args : RawArgs) : HandlerOut :=
  match decodeArgs decodeTraceNetworkPathObj args with
  | .error e => ⟨errResult ("Invalid parameters: " ++ e), none, []⟩
  | .ok p0 =>
    let p := defaultTraceNetworkPath p0
    match o.getPod p.sourceNamespace p.sourcePod with
    | .error e =>
      ⟨errResult ("Failed to get source pod: " ++ e), none,
       [.getPod p.sourceNamespace p.sourcePod]⟩
    | .ok sourcePod =>
      let source : PodInfoRec :=
        { name := sourcePod.name, ns := sourcePod.ns,
          ip := sourcePod.podIP, node := sourcePod.nodeName }
      if p.targetPod ≠ "" then
        match o.getPod p.targetNamespace p.targetPod with
        | .error e =>
          ⟨errResult ("Failed to get target pod: " ++ e), none,
           [.getPod p.sourceNamespace p.sourcePod, .getPod p.targetNamespace p.targetPod]⟩
        | .ok targetPod =>
          traceNetworkPathRun env o p source targetPod.podIP
            { name := targetPod.name, ns := targetPod.ns,
              ip := targetPod.podIP, node := targetPod.nodeName }
            [.getPod p.sourceNamespace p.sourcePod, .getPod p.targetNamespace p.targetPod]
      else if p.targetHost ≠ "" then
        traceNetworkPathRun env o p source p.targetHost
          { name := p.targetHost, ns := "", ip := p.targetHost, node := "" }
          [.getPod p.sourceNamespace p.sourcePod]
      else
        ⟨errResult "Either target_pod or target_host must be specified", none,
         [.getPod p.sourceNamespace p.sourcePod]⟩

/-! ### The dispatcher -/

/-- The fixed result returned when no Kubernetes client is available. -/
def kubeUnavailableResult : CallToolResult :=
  errResult "Kubernetes client not available. Please ensure kubeconfig is properly configured."

/-- The 21 registered tool names, in the order of the dispatch switch. -/
def registeredTools : List String :=
  ["list_contexts", "switch_context", "get_cluster_info",
   "install_istio", "uninstall_istio", "check_istio_status",
   "install_sail_operator", "uninstall_sail_operator", "check_sail_status",
   "deploy_sleep_app", "deploy_httpbin_app", "undeploy_sleep_app", "undeploy_httpbin_app",
   "test_connectivity", "test_sleep_to_httpbin",
   "get_pod_logs", "get_istio_proxy_logs", "exec_pod_command",
   "get_iptables_rules", "get_network_policies", "trace_network_path"]

/-- `Manager.ExecuteTool`: the single funnel from (tool name, raw
arguments) to a result. `hasClient = false` models `m.k8sClient == nil`. -/
def ExecuteTool (hasClient : Bool) (env : Env) (o : Oracle)
    (toolName : String) (args : RawArgs) : HandlerOut :=
  if hasClient = false then
    ⟨kubeUnavailableResult, none, []⟩
  else
    match toolName with
    | "list_contexts" => ListContexts env o args
    | "switch_context" => SwitchContext env o args
    | "get_cluster_info" => GetClusterInfo env o args
    | "install_istio" => InstallIstio env o args
    | "uninstall_istio" => UninstallIstio env o args
    | "check_istio_status" => CheckIstioStatus env o args
    | "install_sail_operator" => InstallSailOperator env o args
    | "uninstall_sail_operator" => UninstallSailOperator env o args
    | "check_sail_status" => CheckSailStatus env o args
    | "deploy_sleep_app" => DeploySleepApp env o args
    | "deploy_httpbin_app" => DeployHttpbinApp env o args
    | "undeploy_sleep_app" => UndeploySleepApp env o args
    | "undeploy_httpbin_app" => UndeployHttpbinApp env o args
    | "test_connectivity" => TestConnectivity env o args
    | "test_sleep_to_httpbin" => TestSleepToHttpbin env o args
    | "get_pod_logs" => GetPodLogs env o args
    | "get_istio_proxy_logs" => GetIstioProxyLogs env o args
    | "exec_pod_command" => ExecPodCommand env o args
    | "get_iptables_rules" => GetIptablesRules env o args
    | "get_network_policies" => GetNetworkPolicies env o args
    | "trace_network_path" => TraceNetworkPath env o args
    | _ => ⟨errResult ("Unknown tool: " ++ toolName), none, []⟩

/-! ### A concrete sample environment and collaborator, used to
instantiate the universally quantified theorems at evaluable inputs. -/

def sampleEnv : Env where
  nowStr := "2026-01-01T00:00:00Z"
  nowUnix := 1767225600
  durStr := "1ms"
  parseTime := fun _ => none
  parseDur := fun _ => .error "time: invalid duration"

def sampleOracle : Oracle where
  loadKubeconfig := .ok ⟨[("kind-a", ⟨"kind-a", "admin-a", "default"⟩),
                          ("kind-b", ⟨"kind-b", "admin-b", "dev"⟩)], "kind-a"⟩
  startingKubeconfig := .ok ⟨[("kind-a", ⟨"kind-a", "admin-a", "default"⟩)], "kind-a"⟩
  writeKubeconfig := fun _ => none
  serverVersion := .ok "v1.29.0"
  listNodes := .ok 3
  listNamespaces := .ok ["default", "kube-system"]
  currentContext := .ok "kind-a"
  configHost := "https://127.0.0.1:6443"
  getPod := fun ns name =>
    if name = "" then .error "resource name may not be empty"
    else .ok ⟨name, ns, ["sleep"], "10.1.0.2", "node-1", some [("app", "sleep")]⟩
  listPods := fun ns _ =>
    .ok [⟨"sleep-abcde", ns, ["sleep"], "10.1.0.2", "node-1", some [("app", "sleep")]⟩]
  getService := fun _ _ => .ok ⟨"10.96.0.10"⟩
  streamLogs := fun _ _ _ => .ok ⟨["hello world"], none⟩
  execInPod := fun _ _ _ _ => .ok "hi\nHTTP_CODE:200\nTIME_TOTAL:0.010\n"
  helm := fun _ => ("ok", none)
  kubectl := fun _ => ("", none)
  debugLogs := fun _ _ _ => ("Chain INPUT (policy ACCEPT)", none)
  helmList := fun _ _ => .ok [⟨"istiod-1.22.0", ""⟩]
  getNamespace := fun _ => .found
  getDaemonSet := fun _ _ => .error "daemonsets.apps istio-cni-node not found"
  listDeployments := fun _ _ => .ok [⟨1, 1, 1, some "repo/img:1.22.0"⟩]
  listNetPols := fun _ _ => .ok []
  nsLabels := fun _ => .ok []
  createNamespace := fun _ _ => .ok
  updateNamespace := fun _ _ => none
  createServiceAccount := fun _ _ => .ok
  createDeployment := fun _ _ _ => .ok
  createService := fun _ _ => .ok
  deleteDeployment := fun _ _ => .ok
  deleteService := fun _ _ => .ok
  deleteServiceAccount := fun _ _ => .ok

/-! ### Result-shape helpers shared by the dispatcher invariants -/

/-- A well-formed result: exactly one content block, typed `"text"`,
with non-empty text. -/
def GoodResult (r : CallToolResult) : Prop :=
  ∃ t, r.content = [{ type := "text", text := t }] ∧ t ≠ ""

theorem shape_ListContexts (env : Env) (o : Oracle) (args : RawArgs) :
    (ListContexts env o args).goErr = none ∧ GoodResult (ListContexts env o args).result := by
  unfold ListContexts
  repeat' (first | split | dsimp only)
  all_goals refine ⟨rfl, _, rfl, ?_⟩
  all_goals first
    | exact renderJson_ne_empty _
    | ((repeat apply string_append_ne_empty_left); decide)

theorem shape_SwitchContext (env : Env) (o : Oracle) (args : RawArgs) :
    (SwitchContext env o args).goErr = none ∧ GoodResult (SwitchContext env o args).result := by
  unfold SwitchContext
  repeat' (first | split | dsimp only)
  all_goals refine ⟨rfl, _, rfl, ?_⟩
  all_goals first
    | exact renderJson_ne_empty _
    | ((repeat apply string_append_ne_empty_left); decide)

theorem shape_GetClusterInfo (env : Env) (o : Oracle) (args : RawArgs) :
    (GetClusterInfo env o args).goErr = none ∧ GoodResult (GetClusterInfo env o args).result := by
  unfold GetClusterInfo
  repeat' (first | split | dsimp only)
  all_goals refine ⟨rfl, _, rfl, ?_⟩
  all_goals first
    | exact renderJson_ne_empty _
    | ((repeat apply string_append_ne_empty_left); decide)

theorem shape_InstallIstio (env : Env) (o : Oracle) (args : RawArgs) :
    (InstallIstio env o args).goErr = none ∧ GoodResult (InstallIstio env o args).result := by
  unfold InstallIstio
  repeat' (first | split | dsimp only)
  all_goals refine ⟨rfl, _, rfl, ?_⟩
  all_goals first
    | exact renderJson_ne_empty _
    | ((repeat apply string_append_ne_empty_left); decide)

theorem shape_UninstallIstio (env : Env) (o : Oracle) (args : RawArgs) :
    (UninstallIstio env o args).goErr = none ∧ GoodResult (UninstallIstio env o args).result := by
  unfold UninstallIstio
  repeat' (first | split | dsimp only)
  all_goals refine ⟨rfl, _, rfl, ?_⟩
  all_goals first
    | exact renderJson_ne_empty _
    | ((repeat apply string_append_ne_empty_left); decide)

theorem shape_CheckIstioStatus (env : Env) (o : Oracle) (args : RawArgs) :
    (CheckIstioStatus env o args).goErr = none ∧ GoodResult (CheckIstioStatus env o args).result := by
  unfold CheckIstioStatus
  repeat' (first | split | dsimp only)
  all_goals refine ⟨rfl, _, rfl, ?_⟩
  all_goals first
    | exact renderJson_ne_empty _
    | ((repeat apply string_append_ne_empty_left); decide)

theorem shape_InstallSailOperator (env : Env) (o : Oracle) (args : RawArgs) :
    (InstallSailOperator env o args).goErr = none ∧
      GoodResult (InstallSailOperator env o args).result := by
  unfold InstallSailOperator
  repeat' (first | split | dsimp only)
  all_goals refine ⟨rfl, _, rfl, ?_⟩
  all_goals first
    | exact renderJson_ne_empty _
    | ((repeat apply string_append_ne_empty_left); decide)

theorem shape_UninstallSailOperator (env : Env) (o : Oracle) (args : RawArgs) :
    (UninstallSailOperator env o args).goErr = none ∧
      GoodResult (UninstallSailOperator env o args).result := by
  unfold UninstallSailOperator
  repeat' (first | split | dsimp only)
  all_goals refine ⟨rfl, _, rfl, ?_⟩
  all_goals first
    | exact renderJson_ne_empty _
    | ((repeat apply string_append_ne_empty_left); decide)

theorem shape_CheckSailStatus (env : Env) (o : Oracle) (args : RawArgs) :
    (CheckSailStatus env o args).goErr = none ∧ GoodResult (CheckSailStatus env o args).result := by
  unfold CheckSailStatus
  repeat' (first | split | dsimp only)
  all_goals refine ⟨rfl, _, rfl, ?_⟩
  all_goals first
    | exact renderJson_ne_empty _
    | ((repeat apply string_append_ne_empty_left); decide)

theorem shape_DeploySleepApp (env : Env) (o : Oracle) (args : RawArgs) :
    (DeploySleepApp env o args).goErr = none ∧ GoodResult (DeploySleepApp env o args).result := by
  unfold DeploySleepApp
  repeat' (first | split | dsimp only)
  all_goals refine ⟨rfl, _, rfl, ?_⟩
  all_goals first
    | exact renderJson_ne_empty _
    | ((repeat apply string_append_ne_empty_left); decide)

theorem shape_DeployHttpbinApp (env : Env) (o : Oracle) (args : RawArgs) :
    (DeployHttpbinApp env o args).goErr = none ∧
      GoodResult (DeployHttpbinApp env o args).result := by
  unfold DeployHttpbinApp
  repeat' (first | split | dsimp only)
  all_goals refine ⟨rfl, _, rfl, ?_⟩
  all_goals first
    | exact renderJson_ne_empty _
    | ((repeat apply string_append_ne_empty_left); decide)

theorem shape_UndeploySleepApp (env : Env) (o : Oracle) (args : RawArgs) :
    (UndeploySleepApp env o args).goErr = none ∧
      GoodResult (UndeploySleepApp env o args).result := by
  unfold UndeploySleepApp
  repeat' (first | split | dsimp only)
  all_goals refine ⟨rfl, _, rfl, ?_⟩
  all_goals first
    | exact renderJson_ne_empty _
    | ((repeat apply string_append_ne_empty_left); decide)

theorem shape_UndeployHttpbinApp (env : Env) (o : Oracle) (args : RawArgs) :
    (UndeployHttpbinApp env o args).goErr = none ∧
      GoodResult (UndeployHttpbinApp env o args).result := by
  unfold UndeployHttpbinApp
  repeat' (first | split | dsimp only)
  all_goals refine ⟨rfl, _, rfl, ?_⟩
  all_goals first
    | exact renderJson_ne_empty _
    | ((repeat apply string_append_ne_empty_left); decide)

theorem shape_TestConnectivity (env : Env) (o : Oracle) (args : RawArgs) :
    (TestConnectivity env o args).goErr = none ∧
      GoodResult (TestConnectivity env o args).result := by
  unfold TestConnectivity
  repeat' (first | split | dsimp only)
  all_goals refine ⟨rfl, _, rfl, ?_⟩
  all_goals first
    | exact renderJson_ne_empty _
    | ((repeat apply string_append_ne_empty_left); decide)

theorem shape_TestSleepToHttpbin (env : Env) (o : Oracle) (args : RawArgs) :
    (TestSleepToHttpbin env o args).goErr = none ∧
      GoodResult (TestSleepToHttpbin env o args).result := by
  unfold TestSleepToHttpbin
  repeat' (first | split | dsimp only)
  all_goals refine ⟨rfl, _, rfl, ?_⟩
  all_goals first
    | exact renderJson_ne_empty _
    | ((repeat apply string_append_ne_empty_left); decide)

theorem shape_GetPodLogs (env : Env) (o : Oracle) (args : RawArgs) :
    (GetPodLogs env o args).goErr = none ∧ GoodResult (GetPodLogs env o args).result := by
  unfold GetPodLogs
  repeat' (first | split | dsimp only)
  all_goals refine ⟨rfl, _, rfl, ?_⟩
  all_goals first
    | exact renderJson_ne_empty _
    | ((repeat apply string_append_ne_empty_left); decide)

theorem shape_GetIstioProxyLogs (env : Env) (o : Oracle) (args : RawArgs) :
    (GetIstioProxyLogs env o args).goErr = none ∧
      GoodResult (GetIstioProxyLogs env o args).result := by
  unfold GetIstioProxyLogs
  repeat' (first | split | dsimp only)
  all_goals first
    | exact shape_GetPodLogs env o _
    | (refine ⟨rfl, _, rfl, ?_⟩
       first
         | exact renderJson_ne_empty _
         | ((repeat apply string_append_ne_empty_left); decide))

theorem shape_ExecPodCommand (env : Env) (o : Oracle) (args : RawArgs) :
    (ExecPodCommand env o args).goErr = none ∧
      GoodResult (ExecPodCommand env o args).result := by
  unfold ExecPodCommand execPodCommandRun
  repeat' (first | split | dsimp only)
  all_goals refine ⟨rfl, _, rfl, ?_⟩
  all_goals first
    | exact renderJson_ne_empty _
    | ((repeat apply string_append_ne_empty_left); decide)

theorem shape_GetIptablesRules (env : Env) (o : Oracle) (args : RawArgs) :
    (GetIptablesRules env o args).goErr = none ∧
      GoodResult (GetIptablesRules env o args).result := by
  unfold GetIptablesRules
  repeat' (first | split | dsimp only)
  all_goals refine ⟨rfl, _, rfl, ?_⟩
  all_goals first
    | exact renderJson_ne_empty _
    | ((repeat apply string_append_ne_empty_left); decide)

theorem shape_GetNetworkPolicies (env : Env) (o : Oracle) (args : RawArgs) :
    (GetNetworkPolicies env o args).goErr = none ∧
      GoodResult (GetNetworkPolicies env o args).result := by
  unfold GetNetworkPolicies
  repeat' (first | split | dsimp only)
  all_goals refine ⟨rfl, _, rfl, ?_⟩
  all_goals first
    | exact renderJson_ne_empty _
    | ((repeat apply string_append_ne_empty_left); decide)

theorem shape_TraceNetworkPath (env : Env) (o : Oracle) (args : RawArgs) :
    (TraceNetworkPath env o args).goErr = none ∧
      GoodResult (TraceNetworkPath env o args).result := by
  unfold TraceNetworkPath traceNetworkPathRun
  repeat' (first | split | dsimp only)
  all_goals refine ⟨rfl, _, rfl, ?_⟩
  all_goals first
    | exact renderJson_ne_empty _
    | ((repeat apply string_append_ne_empty_left); decide)

/-! ### Zero-value-equals-omitted machinery: for every parameter struct,
inserting a field carrying the zero JSON value of its declared type into
a payload that does not otherwise mention that field leaves the decoded
struct unchanged — exactly Go's `json.Unmarshal` behavior, where an
absent field and an explicit zero both produce the field's zero value. -/

theorem jLookup_foldl_some (key : String) (fs : List (String × Json)) (w : Json) :
    fs.foldl (fun acc kv => if kv.1 = key then some kv.2 else acc) (some w) ≠ none := by
  induction fs generalizing w with
  | nil => simp
  | cons a rest ih =>
    rw [List.foldl_cons]
    by_cases ha : a.1 = key
    · rw [if_pos ha]; exact ih a.2
    · rw [if_neg ha]; exact ih w

theorem jLookup_foldl_absent (key : String) (fs : List (String × Json))
    (h : jLookup fs key = none) (init : Option Json) :
    fs.foldl (fun acc kv => if kv.1 = key then some kv.2 else acc) init = init := by
  induction fs generalizing init with
  | nil => rfl
  | cons a rest ih =>
    rw [List.foldl_cons]
    unfold jLookup at h
    rw [List.foldl_cons] at h
    by_cases ha : a.1 = key
    · rw [if_pos ha] at h
      exact absurd h (jLookup_foldl_some key rest a.2)
    · rw [if_neg ha] at h
      rw [if_neg ha]
      exact ih h init

theorem jLookup_cons_self_absent (fs : List (String × Json)) (k : String) (v : Json)
    (h : jLookup fs k = none) : jLookup ((k, v) :: fs) k = some v := by
  unfold jLookup
  rw [List.foldl_cons, if_pos rfl]
  exact jLookup_foldl_absent k fs h (some v)

theorem jLookup_cons_other (fs : List (String × Json)) (k : String) (v : Json) (k2 : String)
    (hne : ¬ k = k2) : jLookup ((k, v) :: fs) k2 = jLookup fs k2 := by
  unfold jLookup
  rw [List.foldl_cons, if_neg hne]

theorem jStr_cons_other (fs : List (String × Json)) (k : String) (v : Json) (k2 : String)
    (hne : ¬ k = k2) : jStr ((k, v) :: fs) k2 = jStr fs k2 := by
  unfold jStr; rw [jLookup_cons_other fs k v k2 hne]

theorem jStr_cons_zero (fs : List (String × Json)) (k : String)
    (h : jLookup fs k = none) : jStr ((k, Json.str "") :: fs) k = jStr fs k := by
  unfold jStr; rw [jLookup_cons_self_absent fs k _ h, h]

theorem jInt_cons_other (fs : List (String × Json)) (k : String) (v : Json) (k2 : String)
    (hne : ¬ k = k2) : jInt ((k, v) :: fs) k2 = jInt fs k2 := by
  unfold jInt; rw [jLookup_cons_other fs k v k2 hne]

theorem jInt_cons_zero (fs : List (String × Json)) (k : String)
    (h : jLookup fs k = none) : jInt ((k, Json.num 0) :: fs) k = jInt fs k := by
  unfold jInt; rw [jLookup_cons_self_absent fs k _ h, h]

theorem jBool_cons_other (fs : List (String × Json)) (k : String) (v : Json) (k2 : String)
    (hne : ¬ k = k2) : jBool ((k, v) :: fs) k2 = jBool fs k2 := by
  unfold jBool; rw [jLookup_cons_other fs k v k2 hne]

theorem jBool_cons_zero (fs : List (String × Json)) (k : String)
    (h : jLookup fs k = none) : jBool ((k, Json.bool false) :: fs) k = jBool fs k := by
  unfold jBool; rw [jLookup_cons_self_absent fs k _ h, h]

theorem jStrList_cons_other (fs : List (String × Json)) (k : String) (v : Json) (k2 : String)
    (hne : ¬ k = k2) : jStrList ((k, v) :: fs) k2 = jStrList fs k2 := by
  unfold jStrList; rw [jLookup_cons_other fs k v k2 hne]

theorem jStrList_cons_zero (fs : List (String × Json)) (k : String)
    (h : jLookup fs k = none) : jStrList ((k, Json.arr []) :: fs) k = jStrList fs k := by
  unfold jStrList
  rw [jLookup_cons_self_absent fs k _ h, h]
  rfl

theorem jObjMap_cons_other (fs : List (String × Json)) (k : String) (v : Json) (k2 : String)
    (hne : ¬ k = k2) : jObjMap ((k, v) :: fs) k2 = jObjMap fs k2 := by
  unfold jObjMap; rw [jLookup_cons_other fs k v k2 hne]

theorem jObjMap_cons_zero (fs : List (String × Json)) (k : String)
    (h : jLookup fs k = none) : jObjMap ((k, Json.obj []) :: fs) k = jObjMap fs k := by
  unfold jObjMap; rw [jLookup_cons_self_absent fs k _ h, h]


/-- Every parameter of `decodeSwitchContextObj` paired with the zero JSON value of its
declared type. -/
def zeroFieldsSwitchContext : List (String × Json) :=
  [("context", .str "")]

theorem decodeSwitchContextObj_insert_zero :
    ∀ k zv, (k, zv) ∈ zeroFieldsSwitchContext → ∀ fs, jLookup fs k = none →
      decodeSwitchContextObj ((k, zv) :: fs) = decodeSwitchContextObj fs := by
  intro k zv hmem fs h
  simp only [zeroFieldsSwitchContext, List.mem_cons, List.not_mem_nil, or_false,
    Prod.mk.injEq] at hmem
  obtain ⟨rfl, rfl⟩ := hmem
  unfold decodeSwitchContextObj
  simp only [jStr_cons_other, jStr_cons_zero, jInt_cons_other, jInt_cons_zero,
    jBool_cons_other, jBool_cons_zero, jStrList_cons_other, jStrList_cons_zero,
    jObjMap_cons_other, jObjMap_cons_zero, h, String.reduceEq, not_false_eq_true]

/-- Every parameter of `decodeInstallIstioObj` paired with the zero JSON value of its
declared type. -/
def zeroFieldsInstallIstio : List (String × Json) :=
  [("namespace", .str ""), ("version", .str ""), ("values", .obj []), ("install_gateway", .bool false), ("gateway_namespace", .str ""), ("install_cni", .bool false), ("cni_values", .obj []), ("timeout", .str ""), ("wait", .bool false)]

theorem decodeInstallIstioObj_insert_zero :
    ∀ k zv, (k, zv) ∈ zeroFieldsInstallIstio → ∀ fs, jLookup fs k = none →
      decodeInstallIstioObj ((k, zv) :: fs) = decodeInstallIstioObj fs := by
  intro k zv hmem fs h
  simp only [zeroFieldsInstallIstio, List.mem_cons, List.not_mem_nil, or_false,
    Prod.mk.injEq] at hmem
  rcases hmem with hm | hm | hm | hm | hm | hm | hm | hm | hm <;>
    obtain ⟨rfl, rfl⟩ := hm
  all_goals
    (unfold decodeInstallIstioObj
     simp only [jStr_cons_other, jStr_cons_zero, jInt_cons_other, jInt_cons_zero,
       jBool_cons_other, jBool_cons_zero, jStrList_cons_other, jStrList_cons_zero,
       jObjMap_cons_other, jObjMap_cons_zero, h, String.reduceEq, not_false_eq_true])

/-- Every parameter of `decodeUninstallIstioObj` paired with the zero JSON value of its
declared type. -/
def zeroFieldsUninstallIstio : List (String × Json) :=
  [("namespace", .str ""), ("gateway_namespace", .str ""), ("uninstall_cni", .bool false), ("delete_crds", .bool false), ("wait", .bool false), ("timeout", .str "")]

theorem decodeUninstallIstioObj_insert_zero :
    ∀ k zv, (k, zv) ∈ zeroFieldsUninstallIstio → ∀ fs, jLookup fs k = none →
      decodeUninstallIstioObj ((k, zv) :: fs) = decodeUninstallIstioObj fs := by
  intro k zv hmem fs h
  simp only [zeroFieldsUninstallIstio, List.mem_cons, List.not_mem_nil, or_false,
    Prod.mk.injEq] at hmem
  rcases hmem with hm | hm | hm | hm | hm | hm <;>
    obtain ⟨rfl, rfl⟩ := hm
  all_goals
    (unfold decodeUninstallIstioObj
     simp only [jStr_cons_other, jStr_cons_zero, jInt_cons_other, jInt_cons_zero,
       jBool_cons_other, jBool_cons_zero, jStrList_cons_other, jStrList_cons_zero,
       jObjMap_cons_other, jObjMap_cons_zero, h, String.reduceEq, not_false_eq_true])

/-- Every parameter of `decodeNamespaceOnlyObj` paired with the zero JSON value of its
declared type. -/
def zeroFieldsNamespaceOnly : List (String × Json) :=
  [("namespace", .str "")]

theorem decodeNamespaceOnlyObj_insert_zero :
    ∀ k zv, (k, zv) ∈ zeroFieldsNamespaceOnly → ∀ fs, jLookup fs k = none →
      decodeNamespaceOnlyObj ((k, zv) :: fs) = decodeNamespaceOnlyObj fs := by
  intro k zv hmem fs h
  simp only [zeroFieldsNamespaceOnly, List.mem_cons, List.not_mem_nil, or_false,
    Prod.mk.injEq] at hmem
  obtain ⟨rfl, rfl⟩ := hmem
  unfold decodeNamespaceOnlyObj
  simp only [jStr_cons_other, jStr_cons_zero, jInt_cons_other, jInt_cons_zero,
    jBool_cons_other, jBool_cons_zero, jStrList_cons_other, jStrList_cons_zero,
    jObjMap_cons_other, jObjMap_cons_zero, h, String.reduceEq, not_false_eq_true]

/-- Every parameter of `decodeInstallSailObj` paired with the zero JSON value of its
declared type. -/
def zeroFieldsInstallSail : List (String × Json) :=
  [("namespace", .str ""), ("version", .str ""), ("release_name", .str ""), ("values", .obj []), ("wait", .bool false), ("timeout", .str "")]

theorem decodeInstallSailObj_insert_zero :
    ∀ k zv, (k, zv) ∈ zeroFieldsInstallSail → ∀ fs, jLookup fs k = none →
      decodeInstallSailObj ((k, zv) :: fs) = decodeInstallSailObj fs := by
  intro k zv hmem fs h
  simp only [zeroFieldsInstallSail, List.mem_cons, List.not_mem_nil, or_false,
    Prod.mk.injEq] at hmem
  rcases hmem with hm | hm | hm | hm | hm | hm <;>
    obtain ⟨rfl, rfl⟩ := hm
  all_goals
    (unfold decodeInstallSailObj
     simp only [jStr_cons_other, jStr_cons_zero, jInt_cons_other, jInt_cons_zero,
       jBool_cons_other, jBool_cons_zero, jStrList_cons_other, jStrList_cons_zero,
       jObjMap_cons_other, jObjMap_cons_zero, h, String.reduceEq, not_false_eq_true])

/-- Every parameter of `decodeUninstallSailObj` paired with the zero JSON value of its
declared type. -/
def zeroFieldsUninstallSail : List (String × Json) :=
  [("namespace", .str ""), ("release_name", .str ""), ("wait", .bool false), ("timeout", .str "")]

theorem decodeUninstallSailObj_insert_zero :
    ∀ k zv, (k, zv) ∈ zeroFieldsUninstallSail → ∀ fs, jLookup fs k = none →
      decodeUninstallSailObj ((k, zv) :: fs) = decodeUninstallSailObj fs := by
  intro k zv hmem fs h
  simp only [zeroFieldsUninstallSail, List.mem_cons, List.not_mem_nil, or_false,
    Prod.mk.injEq] at hmem
  rcases hmem with hm | hm | hm | hm <;>
    obtain ⟨rfl, rfl⟩ := hm
  all_goals
    (unfold decodeUninstallSailObj
     simp only [jStr_cons_other, jStr_cons_zero, jInt_cons_other, jInt_cons_zero,
       jBool_cons_other, jBool_cons_zero, jStrList_cons_other, jStrList_cons_zero,
       jObjMap_cons_other, jObjMap_cons_zero, h, String.reduceEq, not_false_eq_true])

/-- Every parameter of `decodeDeploySleepObj` paired with the zero JSON value of its
declared type. -/
def zeroFieldsDeploySleep : List (String × Json) :=
  [("namespace", .str ""), ("istio_injection", .bool false), ("replicas", .num 0)]

theorem decodeDeploySleepObj_insert_zero :
    ∀ k zv, (k, zv) ∈ zeroFieldsDeploySleep → ∀ fs, jLookup fs k = none →
      decodeDeploySleepObj ((k, zv) :: fs) = decodeDeploySleepObj fs := by
  intro k zv hmem fs h
  simp only [zeroFieldsDeploySleep, List.mem_cons, List.not_mem_nil, or_false,
    Prod.mk.injEq] at hmem
  rcases hmem with hm | hm | hm <;>
    obtain ⟨rfl, rfl⟩ := hm
  all_goals
    (unfold decodeDeploySleepObj
     simp only [jStr_cons_other, jStr_cons_zero, jInt_cons_other, jInt_cons_zero,
       jBool_cons_other, jBool_cons_zero, jStrList_cons_other, jStrList_cons_zero,
       jObjMap_cons_other, jObjMap_cons_zero, h, String.reduceEq, not_false_eq_true])

/-- Every parameter of `decodeDeployHttpbinObj` paired with the zero JSON value of its
declared type. -/
def zeroFieldsDeployHttpbin : List (String × Json) :=
  [("namespace", .str ""), ("istio_injection", .bool false), ("replicas", .num 0), ("expose_service", .bool false)]

theorem decodeDeployHttpbinObj_insert_zero :
    ∀ k zv, (k, zv) ∈ zeroFieldsDeployHttpbin → ∀ fs, jLookup fs k = none →
      decodeDeployHttpbinObj ((k, zv) :: fs) = decodeDeployHttpbinObj fs := by
  intro k zv hmem fs h
  simp only [zeroFieldsDeployHttpbin, List.mem_cons, List.not_mem_nil, or_false,
    Prod.mk.injEq] at hmem
  rcases hmem with hm | hm | hm | hm <;>
    obtain ⟨rfl, rfl⟩ := hm
  all_goals
    (unfold decodeDeployHttpbinObj
     simp only [jStr_cons_other, jStr_cons_zero, jInt_cons_other, jInt_cons_zero,
       jBool_cons_other, jBool_cons_zero, jStrList_cons_other, jStrList_cons_zero,
       jObjMap_cons_other, jObjMap_cons_zero, h, String.reduceEq, not_false_eq_true])

/-- Every parameter of `decodeTestConnectivityObj` paired with the zero JSON value of its
declared type. -/
def zeroFieldsTestConnectivity : List (String × Json) :=
  [("source_pod", .str ""), ("source_namespace", .str ""), ("target_service", .str ""), ("target_port", .num 0), ("protocol", .str ""), ("path", .str ""), ("timeout", .num 0), ("method", .str "")]

theorem decodeTestConnectivityObj_insert_zero :
    ∀ k zv, (k, zv) ∈ zeroFieldsTestConnectivity → ∀ fs, jLookup fs k = none →
      decodeTestConnectivityObj ((k, zv) :: fs) = decodeTestConnectivityObj fs := by
  intro k zv hmem fs h
  simp only [zeroFieldsTestConnectivity, List.mem_cons, List.not_mem_nil, or_false,
    Prod.mk.injEq] at hmem
  rcases hmem with hm | hm | hm | hm | hm | hm | hm | hm <;>
    obtain ⟨rfl, rfl⟩ := hm
  all_goals
    (unfold decodeTestConnectivityObj
     simp only [jStr_cons_other, jStr_cons_zero, jInt_cons_other, jInt_cons_zero,
       jBool_cons_other, jBool_cons_zero, jStrList_cons_other, jStrList_cons_zero,
       jObjMap_cons_other, jObjMap_cons_zero, h, String.reduceEq, not_false_eq_true])

/-- Every parameter of `decodeTestSleepToHttpbinObj` paired with the zero JSON value of its
declared type. -/
def zeroFieldsTestSleepToHttpbin : List (String × Json) :=
  [("source_namespace", .str ""), ("target_namespace", .str ""), ("test_endpoints", .arr []), ("timeout", .num 0)]

theorem decodeTestSleepToHttpbinObj_insert_zero :
    ∀ k zv, (k, zv) ∈ zeroFieldsTestSleepToHttpbin → ∀ fs, jLookup fs k = none →
      decodeTestSleepToHttpbinObj ((k, zv) :: fs) = decodeTestSleepToHttpbinObj fs := by
  intro k zv hmem fs h
  simp only [zeroFieldsTestSleepToHttpbin, List.mem_cons, List.not_mem_nil, or_false,
    Prod.mk.injEq] at hmem
  rcases hmem with hm | hm | hm | hm <;>
    obtain ⟨rfl, rfl⟩ := hm
  all_goals
    (unfold decodeTestSleepToHttpbinObj
     simp only [jStr_cons_other, jStr_cons_zero, jInt_cons_other, jInt_cons_zero,
       jBool_cons_other, jBool_cons_zero, jStrList_cons_other, jStrList_cons_zero,
       jObjMap_cons_other, jObjMap_cons_zero, h, String.reduceEq, not_false_eq_true])

/-- Every parameter of `decodeGetPodLogsObj` paired with the zero JSON value of its
declared type. -/
def zeroFieldsGetPodLogs : List (String × Json) :=
  [("pod_name", .str ""), ("namespace", .str ""), ("container", .str ""), ("lines", .num 0), ("since", .str ""), ("follow", .bool false), ("previous", .bool false), ("timestamps", .bool false), ("parse_logs", .bool false), ("max_lines", .num 0)]

theorem decodeGetPodLogsObj_insert_zero :
    ∀ k zv, (k, zv) ∈ zeroFieldsGetPodLogs → ∀ fs, jLookup fs k = none →
      decodeGetPodLogsObj ((k, zv) :: fs) = decodeGetPodLogsObj fs := by
  intro k zv hmem fs h
  simp only [zeroFieldsGetPodLogs, List.mem_cons, List.not_mem_nil, or_false,
    Prod.mk.injEq] at hmem
  rcases hmem with hm | hm | hm | hm | hm | hm | hm | hm | hm | hm <;>
    obtain ⟨rfl, rfl⟩ := hm
  all_goals
    (unfold decodeGetPodLogsObj
     simp only [jStr_cons_other, jStr_cons_zero, jInt_cons_other, jInt_cons_zero,
       jBool_cons_other, jBool_cons_zero, jStrList_cons_other, jStrList_cons_zero,
       jObjMap_cons_other, jObjMap_cons_zero, h, String.reduceEq, not_false_eq_true])

/-- Every parameter of `decodeGetIstioProxyLogsObj` paired with the zero JSON value of its
declared type. -/
def zeroFieldsGetIstioProxyLogs : List (String × Json) :=
  [("pod_name", .str ""), ("namespace", .str ""), ("lines", .num 0), ("since", .str ""), ("log_level", .str "")]

theorem decodeGetIstioProxyLogsObj_insert_zero :
    ∀ k zv, (k, zv) ∈ zeroFieldsGetIstioProxyLogs → ∀ fs, jLookup fs k = none →
      decodeGetIstioProxyLogsObj ((k, zv) :: fs) = decodeGetIstioProxyLogsObj fs := by
  intro k zv hmem fs h
  simp only [zeroFieldsGetIstioProxyLogs, List.mem_cons, List.not_mem_nil, or_false,
    Prod.mk.injEq] at hmem
  rcases hmem with hm | hm | hm | hm | hm <;>
    obtain ⟨rfl, rfl⟩ := hm
  all_goals
    (unfold decodeGetIstioProxyLogsObj
     simp only [jStr_cons_other, jStr_cons_zero, jInt_cons_other, jInt_cons_zero,
       jBool_cons_other, jBool_cons_zero, jStrList_cons_other, jStrList_cons_zero,
       jObjMap_cons_other, jObjMap_cons_zero, h, String.reduceEq, not_false_eq_true])

/-- Every parameter of `decodeExecPodCommandObj` paired with the zero JSON value of its
declared type. -/
def zeroFieldsExecPodCommand : List (String × Json) :=
  [("pod_name", .str ""), ("namespace", .str ""), ("container", .str ""), ("command", .arr []), ("interactive", .bool false), ("timeout", .num 0)]

theorem decodeExecPodCommandObj_insert_zero :
    ∀ k zv, (k, zv) ∈ zeroFieldsExecPodCommand → ∀ fs, jLookup fs k = none →
      decodeExecPodCommandObj ((k, zv) :: fs) = decodeExecPodCommandObj fs := by
  intro k zv hmem fs h
  simp only [zeroFieldsExecPodCommand, List.mem_cons, List.not_mem_nil, or_false,
    Prod.mk.injEq] at hmem
  rcases hmem with hm | hm | hm | hm | hm | hm <;>
    obtain ⟨rfl, rfl⟩ := hm
  all_goals
    (unfold decodeExecPodCommandObj
     simp only [jStr_cons_other, jStr_cons_zero, jInt_cons_other, jInt_cons_zero,
       jBool_cons_other, jBool_cons_zero, jStrList_cons_other, jStrList_cons_zero,
       jObjMap_cons_other, jObjMap_cons_zero, h, String.reduceEq, not_false_eq_true])

/-- Every parameter of `decodeGetIptablesRulesObj` paired with the zero JSON value of its
declared type. -/
def zeroFieldsGetIptablesRules : List (String × Json) :=
  [("pod_name", .str ""), ("namespace", .str ""), ("container", .str ""), ("tables", .arr []), ("verbose", .bool false)]

theorem decodeGetIptablesRulesObj_insert_zero :
    ∀ k zv, (k, zv) ∈ zeroFieldsGetIptablesRules → ∀ fs, jLookup fs k = none →
      decodeGetIptablesRulesObj ((k, zv) :: fs) = decodeGetIptablesRulesObj fs := by
  intro k zv hmem fs h
  simp only [zeroFieldsGetIptablesRules, List.mem_cons, List.not_mem_nil, or_false,
    Prod.mk.injEq] at hmem
  rcases hmem with hm | hm | hm | hm | hm <;>
    obtain ⟨rfl, rfl⟩ := hm
  all_goals
    (unfold decodeGetIptablesRulesObj
     simp only [jStr_cons_other, jStr_cons_zero, jInt_cons_other, jInt_cons_zero,
       jBool_cons_other, jBool_cons_zero, jStrList_cons_other, jStrList_cons_zero,
       jObjMap_cons_other, jObjMap_cons_zero, h, String.reduceEq, not_false_eq_true])

/-- Every parameter of `decodeGetNetworkPoliciesObj` paired with the zero JSON value of its
declared type. -/
def zeroFieldsGetNetworkPolicies : List (String × Json) :=
  [("namespace", .str ""), ("pod_name", .str ""), ("label_selector", .str "")]

theorem decodeGetNetworkPoliciesObj_insert_zero :
    ∀ k zv, (k, zv) ∈ zeroFieldsGetNetworkPolicies → ∀ fs, jLookup fs k = none →
      decodeGetNetworkPoliciesObj ((k, zv) :: fs) = decodeGetNetworkPoliciesObj fs := by
  intro k zv hmem fs h
  simp only [zeroFieldsGetNetworkPolicies, List.mem_cons, List.not_mem_nil, or_false,
    Prod.mk.injEq] at hmem
  rcases hmem with hm | hm | hm <;>
    obtain ⟨rfl, rfl⟩ := hm
  all_goals
    (unfold decodeGetNetworkPoliciesObj
     simp only [jStr_cons_other, jStr_cons_zero, jInt_cons_other, jInt_cons_zero,
       jBool_cons_other, jBool_cons_zero, jStrList_cons_other, jStrList_cons_zero,
       jObjMap_cons_other, jObjMap_cons_zero, h, String.reduceEq, not_false_eq_true])

/-- Every parameter of `decodeTraceNetworkPathObj` paired with the zero JSON value of its
declared type. -/
def zeroFieldsTraceNetworkPath : List (String × Json) :=
  [("source_pod", .str ""), ("source_namespace", .str ""), ("target_pod", .str ""), ("target_namespace", .str ""), ("target_host", .str ""), ("target_port", .num 0), ("max_hops", .num 0)]

theorem decodeTraceNetworkPathObj_insert_zero :
    ∀ k zv, (k, zv) ∈ zeroFieldsTraceNetworkPath → ∀ fs, jLookup fs k = none →
      decodeTraceNetworkPathObj ((k, zv) :: fs) = decodeTraceNetworkPathObj fs := by
  intro k zv hmem fs h
  simp only [zeroFieldsTraceNetworkPath, List.mem_cons, List.not_mem_nil, or_false,
    Prod.mk.injEq] at hmem
  rcases hmem with hm | hm | hm | hm | hm | hm | hm <;>
    obtain ⟨rfl, rfl⟩ := hm
  all_goals
    (unfold decodeTraceNetworkPathObj
     simp only [jStr_cons_other, jStr_cons_zero, jInt_cons_other, jInt_cons_zero,
       jBool_cons_other, jBool_cons_zero, jStrList_cons_other, jStrList_cons_zero,
       jObjMap_cons_other, jObjMap_cons_zero, h, String.reduceEq, not_false_eq_true])

theorem zeroOmitted_TraceNetworkPath :
    ∀ (env : Env) (o : Oracle) k zv fs, (k, zv) ∈ zeroFieldsTraceNetworkPath → jLookup fs k = none →
      TraceNetworkPath env o (some (.obj ((k, zv) :: fs))) = TraceNetworkPath env o (some (.obj fs)) := by
  intro env o k zv fs hmem h
  have hd : decodeArgs decodeTraceNetworkPathObj (some (.obj ((k, zv) :: fs))) =
      decodeArgs decodeTraceNetworkPathObj (some (.obj fs)) :=
    decodeTraceNetworkPathObj_insert_zero k zv hmem fs h
  unfold TraceNetworkPath
  rw [hd]

theorem zeroOmitted_SwitchContext :
    ∀ (env : Env) (o : Oracle) k zv fs, (k, zv) ∈ zeroFieldsSwitchContext → jLookup fs k = none →
      SwitchContext env o (some (.obj ((k, zv) :: fs))) = SwitchContext env o (some (.obj fs)) := by
  intro env o k zv fs hmem h
  have hd : decodeArgs decodeSwitchContextObj (some (.obj ((k, zv) :: fs))) =
      decodeArgs decodeSwitchContextObj (some (.obj fs)) :=
    decodeSwitchContextObj_insert_zero k zv hmem fs h
  unfold SwitchContext
  rw [hd]

theorem zeroOmitted_InstallIstio :
    ∀ (env : Env) (o : Oracle) k zv fs, (k, zv) ∈ zeroFieldsInstallIstio → jLookup fs k = none →
      InstallIstio env o (some (.obj ((k, zv) :: fs))) = InstallIstio env o (some (.obj fs)) := by
  intro env o k zv fs hmem h
  have hd : decodeArgs decodeInstallIstioObj (some (.obj ((k, zv) :: fs))) =
      decodeArgs decodeInstallIstioObj (some (.obj fs)) :=
    decodeInstallIstioObj_insert_zero k zv hmem fs h
  unfold InstallIstio
  rw [hd]

theorem zeroOmitted_UninstallIstio :
    ∀ (env : Env) (o : Oracle) k zv fs, (k, zv) ∈ zeroFieldsUninstallIstio → jLookup fs k = none →
      UninstallIstio env o (some (.obj ((k, zv) :: fs))) = UninstallIstio env o (some (.obj fs)) := by
  intro env o k zv fs hmem h
  have hd : decodeArgs decodeUninstallIstioObj (some (.obj ((k, zv) :: fs))) =
      decodeArgs decodeUninstallIstioObj (some (.obj fs)) :=
    decodeUninstallIstioObj_insert_zero k zv hmem fs h
  unfold UninstallIstio
  rw [hd]

theorem zeroOmitted_CheckIstioStatus :
    ∀ (env : Env) (o : Oracle) k zv fs, (k, zv) ∈ zeroFieldsNamespaceOnly → jLookup fs k = none →
      CheckIstioStatus env o (some (.obj ((k, zv) :: fs))) = CheckIstioStatus env o (some (.obj fs)) := by
  intro env o k zv fs hmem h
  have hd : decodeArgs decodeNamespaceOnlyObj (some (.obj ((k, zv) :: fs))) =
      decodeArgs decodeNamespaceOnlyObj (some (.obj fs)) :=
    decodeNamespaceOnlyObj_insert_zero k zv hmem fs h
  unfold CheckIstioStatus
  rw [hd]

theorem zeroOmitted_InstallSailOperator :
    ∀ (env : Env) (o : Oracle) k zv fs, (k, zv) ∈ zeroFieldsInstallSail → jLookup fs k = none →
      InstallSailOperator env o (some (.obj ((k, zv) :: fs))) = InstallSailOperator env o (some (.obj fs)) := by
  intro env o k zv fs hmem h
  have hd : decodeArgs decodeInstallSailObj (some (.obj ((k, zv) :: fs))) =
      decodeArgs decodeInstallSailObj (some (.obj fs)) :=
    decodeInstallSailObj_insert_zero k zv hmem fs h
  unfold InstallSailOperator
  rw [hd]

theorem zeroOmitted_UninstallSailOperator :
    ∀ (env : Env) (o : Oracle) k zv fs, (k, zv) ∈ zeroFieldsUninstallSail → jLookup fs k = none →
      UninstallSailOperator env o (some (.obj ((k, zv) :: fs))) = UninstallSailOperator env o (some (.obj fs)) := by
  intro env o k zv fs hmem h
  have hd : decodeArgs decodeUninstallSailObj (some (.obj ((k, zv) :: fs))) =
      decodeArgs decodeUninstallSailObj (some (.obj fs)) :=
    decodeUninstallSailObj_insert_zero k zv hmem fs h
  unfold UninstallSailOperator
  rw [hd]

theorem zeroOmitted_CheckSailStatus :
    ∀ (env : Env) (o : Oracle) k zv fs, (k, zv) ∈ zeroFieldsNamespaceOnly → jLookup fs k = none →
      CheckSailStatus env o (some (.obj ((k, zv) :: fs))) = CheckSailStatus env o (some (.obj fs)) := by
  intro env o k zv fs hmem h
  have hd : decodeArgs decodeNamespaceOnlyObj (some (.obj ((k, zv) :: fs))) =
      decodeArgs decodeNamespaceOnlyObj (some (.obj fs)) :=
    decodeNamespaceOnlyObj_insert_zero k zv hmem fs h
  unfold CheckSailStatus
  rw [hd]

theorem zeroOmitted_DeploySleepApp :
    ∀ (env : Env) (o : Oracle) k zv fs, (k, zv) ∈ zeroFieldsDeploySleep → jLookup fs k = none →
      DeploySleepApp env o (some (.obj ((k, zv) :: fs))) = DeploySleepApp env o (some (.obj fs)) := by
  intro env o k zv fs hmem h
  have hd : decodeArgs decodeDeploySleepObj (some (.obj ((k, zv) :: fs))) =
      decodeArgs decodeDeploySleepObj (some (.obj fs)) :=
    decodeDeploySleepObj_insert_zero k zv hmem fs h
  unfold DeploySleepApp
  rw [hd]

theorem zeroOmitted_DeployHttpbinApp :
    ∀ (env : Env) (o : Oracle) k zv fs, (k, zv) ∈ zeroFieldsDeployHttpbin → jLookup fs k = none →
      DeployHttpbinApp env o (some (.obj ((k, zv) :: fs))) = DeployHttpbinApp env o (some (.obj fs)) := by
  intro env o k zv fs hmem h
  have hd : decodeArgs decodeDeployHttpbinObj (some (.obj ((k, zv) :: fs))) =
      decodeArgs decodeDeployHttpbinObj (some (.obj fs)) :=
    decodeDeployHttpbinObj_insert_zero k zv hmem fs h
  unfold DeployHttpbinApp
  rw [hd]

theorem zeroOmitted_UndeploySleepApp :
    ∀ (env : Env) (o : Oracle) k zv fs, (k, zv) ∈ zeroFieldsNamespaceOnly → jLookup fs k = none →
      UndeploySleepApp env o (some (.obj ((k, zv) :: fs))) = UndeploySleepApp env o (some (.obj fs)) := by
  intro env o k zv fs hmem h
  have hd : decodeArgs decodeNamespaceOnlyObj (some (.obj ((k, zv) :: fs))) =
      decodeArgs decodeNamespaceOnlyObj (some (.obj fs)) :=
    decodeNamespaceOnlyObj_insert_zero k zv hmem fs h
  unfold UndeploySleepApp
  rw [hd]

theorem zeroOmitted_UndeployHttpbinApp :
    ∀ (env : Env) (o : Oracle) k zv fs, (k, zv) ∈ zeroFieldsNamespaceOnly → jLookup fs k = none →
      UndeployHttpbinApp env o (some (.obj ((k, zv) :: fs))) = UndeployHttpbinApp env o (some (.obj fs)) := by
  intro env o k zv fs hmem h
  have hd : decodeArgs decodeNamespaceOnlyObj (some (.obj ((k, zv) :: fs))) =
      decodeArgs decodeNamespaceOnlyObj (some (.obj fs)) :=
    decodeNamespaceOnlyObj_insert_zero k zv hmem fs h
  unfold UndeployHttpbinApp
  rw [hd]

theorem zeroOmitted_TestConnectivity :
    ∀ (env : Env) (o : Oracle) k zv fs, (k, zv) ∈ zeroFieldsTestConnectivity → jLookup fs k = none →
      TestConnectivity env o (some (.obj ((k, zv) :: fs))) = TestConnectivity env o (some (.obj fs)) := by
  intro env o k zv fs hmem h
  have hd : decodeArgs decodeTestConnectivityObj (some (.obj ((k, zv) :: fs))) =
      decodeArgs decodeTestConnectivityObj (some (.obj fs)) :=
    decodeTestConnectivityObj_insert_zero k zv hmem fs h
  unfold TestConnectivity
  rw [hd]

theorem zeroOmitted_TestSleepToHttpbin :
    ∀ (env : Env) (o : Oracle) k zv fs, (k, zv) ∈ zeroFieldsTestSleepToHttpbin → jLookup fs k = none →
      TestSleepToHttpbin env o (some (.obj ((k, zv) :: fs))) = TestSleepToHttpbin env o (some (.obj fs)) := by
  intro env o k zv fs hmem h
  have hd : decodeArgs decodeTestSleepToHttpbinObj (some (.obj ((k, zv) :: fs))) =
      decodeArgs decodeTestSleepToHttpbinObj (some (.obj fs)) :=
    decodeTestSleepToHttpbinObj_insert_zero k zv hmem fs h
  unfold TestSleepToHttpbin
  rw [hd]

theorem zeroOmitted_GetPodLogs :
    ∀ (env : Env) (o : Oracle) k zv fs, (k, zv) ∈ zeroFieldsGetPodLogs → jLookup fs k = none →
      GetPodLogs env o (some (.obj ((k, zv) :: fs))) = GetPodLogs env o (some (.obj fs)) := by
  intro env o k zv fs hmem h
  have hd : decodeArgs decodeGetPodLogsObj (some (.obj ((k, zv) :: fs))) =
      decodeArgs decodeGetPodLogsObj (some (.obj fs)) :=
    decodeGetPodLogsObj_insert_zero k zv hmem fs h
  unfold GetPodLogs
  rw [hd]

theorem zeroOmitted_GetIstioProxyLogs :
    ∀ (env : Env) (o : Oracle) k zv fs, (k, zv) ∈ zeroFieldsGetIstioProxyLogs → jLookup fs k = none →
      GetIstioProxyLogs env o (some (.obj ((k, zv) :: fs))) = GetIstioProxyLogs env o (some (.obj fs)) := by
  intro env o k zv fs hmem h
  have hd : decodeArgs decodeGetIstioProxyLogsObj (some (.obj ((k, zv) :: fs))) =
      decodeArgs decodeGetIstioProxyLogsObj (some (.obj fs)) :=
    decodeGetIstioProxyLogsObj_insert_zero k zv hmem fs h
  unfold GetIstioProxyLogs
  rw [hd]

theorem zeroOmitted_ExecPodCommand :
    ∀ (env : Env) (o : Oracle) k zv fs, (k, zv) ∈ zeroFieldsExecPodCommand → jLookup fs k = none →
      ExecPodCommand env o (some (.obj ((k, zv) :: fs))) = ExecPodCommand env o (some (.obj fs)) := by
  intro env o k zv fs hmem h
  have hd : decodeArgs decodeExecPodCommandObj (some (.obj ((k, zv) :: fs))) =
      decodeArgs decodeExecPodCommandObj (some (.obj fs)) :=
    decodeExecPodCommandObj_insert_zero k zv hmem fs h
  unfold ExecPodCommand
  rw [hd]

theorem zeroOmitted_GetIptablesRules :
    ∀ (env : Env) (o : Oracle) k zv fs, (k, zv) ∈ zeroFieldsGetIptablesRules → jLookup fs k = none →
      GetIptablesRules env o (some (.obj ((k, zv) :: fs))) = GetIptablesRules env o (some (.obj fs)) := by
  intro env o k zv fs hmem h
  have hd : decodeArgs decodeGetIptablesRulesObj (some (.obj ((k, zv) :: fs))) =
      decodeArgs decodeGetIptablesRulesObj (some (.obj fs)) :=
    decodeGetIptablesRulesObj_insert_zero k zv hmem fs h
  unfold GetIptablesRules
  rw [hd]

theorem zeroOmitted_GetNetworkPolicies :
    ∀ (env : Env) (o : Oracle) k zv fs, (k, zv) ∈ zeroFieldsGetNetworkPolicies → jLookup fs k = none →
      GetNetworkPolicies env o (some (.obj ((k, zv) :: fs))) = GetNetworkPolicies env o (some (.obj fs)) := by
  intro env o k zv fs hmem h
  have hd : decodeArgs decodeGetNetworkPoliciesObj (some (.obj ((k, zv) :: fs))) =
      decodeArgs decodeGetNetworkPoliciesObj (some (.obj fs)) :=
    decodeGetNetworkPoliciesObj_insert_zero k zv hmem fs h
  unfold GetNetworkPolicies
  rw [hd]

/-! ### The claims -/

/-- C1: for every tool name (known or unknown), every raw argument
payload, every collaborator behavior and every client state, the
dispatcher `ExecuteTool` returns a result with a nil Go error — no
failure path escapes as a fault. (Totality of the embedding itself,
together with the per-handler shape lemmas, models freedom from panics:
every guard the Go code relies on before a partial operation is present
in the translation.) -/
theorem C1_executeTool_never_faults (hasClient : Bool) (env : Env) (o : Oracle)
    (toolName : String) (args : RawArgs) :
    (ExecuteTool hasClient env o toolName args).goErr = none := by
  unfold ExecuteTool
  split
  · rfl
  · split
    all_goals first
      | rfl
      | exact (shape_ListContexts env o args).1
      | exact (shape_SwitchContext env o args).1
      | exact (shape_GetClusterInfo env o args).1
      | exact (shape_InstallIstio env o args).1
      | exact (shape_UninstallIstio env o args).1
      | exact (shape_CheckIstioStatus env o args).1
      | exact (shape_InstallSailOperator env o args).1
      | exact (shape_UninstallSailOperator env o args).1
      | exact (shape_CheckSailStatus env o args).1
      | exact (shape_DeploySleepApp env o args).1
      | exact (shape_DeployHttpbinApp env o args).1
      | exact (shape_UndeploySleepApp env o args).1
      | exact (shape_UndeployHttpbinApp env o args).1
      | exact (shape_TestConnectivity env o args).1
      | exact (shape_TestSleepToHttpbin env o args).1
      | exact (shape_GetPodLogs env o args).1
      | exact (shape_GetIstioProxyLogs env o args).1
      | exact (shape_ExecPodCommand env o args).1
      | exact (shape_GetIptablesRules env o args).1
      | exact (shape_GetNetworkPolicies env o args).1
      | exact (shape_TraceNetworkPath env o args).1

/-- C2: with no cluster client established (`k8sClient == nil`), every
invocation — any tool name, registered or not, and any payload — returns
the fixed "Kubernetes client not available" error result, with no
collaborator call recorded (so no handler runs); the check precedes the
unknown-tool check because it applies to unknown names as well. -/
theorem C2_nil_client_short_circuit (env : Env) (o : Oracle)
    (toolName : String) (args : RawArgs) :
    ExecuteTool false env o toolName args =
      ⟨errResult "Kubernetes client not available. Please ensure kubeconfig is properly configured.",
       none, []⟩ := rfl

/-- C3: with a client available, a name outside the 21 registered tools
yields the error result `Unknown tool: <name>` (the diagnostic carries
the literal unknown name), with an empty collaborator trace — no handler
is invoked and no external side effect occurs. -/
theorem C3_unknown_tool (env : Env) (o : Oracle) (toolName : String) (args : RawArgs)
    (h : toolName ∉ registeredTools) :
    ExecuteTool true env o toolName args =
      ⟨errResult ("Unknown tool: " ++ toolName), none, []⟩ := by
  unfold ExecuteTool
  split
  · simp_all
  · split
    all_goals try rfl
    all_goals exact absurd (by simp_all [registeredTools]) h

/-- Witness for C3 at the concrete unknown name "bogus_tool". -/
theorem C3_unknown_tool_witness :
    ExecuteTool true sampleEnv sampleOracle "bogus_tool" (some (.obj [])) =
      ⟨errResult ("Unknown tool: " ++ "bogus_tool"), none, []⟩ :=
  C3_unknown_tool sampleEnv sampleOracle "bogus_tool" (some (.obj [])) (by decide)

/-- C9: every result the dispatcher produces — any tool, any payload,
any client state, success or failure — carries exactly one content
block, a typed `"text"` block whose text is non-empty (a diagnostic on
the error path, the operation's output, typically marshalled JSON, on
the success path). -/
theorem C9_result_shape (hasClient : Bool) (env : Env) (o : Oracle)
    (toolName : String) (args : RawArgs) :
    ∃ t, (ExecuteTool hasClient env o toolName args).result.content =
      [{ type := "text", text := t }] ∧ t ≠ "" := by
  show GoodResult (ExecuteTool hasClient env o toolName args).result
  unfold ExecuteTool
  split
  · exact ⟨_, rfl, by decide⟩
  · split
    all_goals first
      | exact ⟨_, rfl, by ((repeat apply string_append_ne_empty_left); decide)⟩
      | exact (shape_ListContexts env o args).2
      | exact (shape_SwitchContext env o args).2
      | exact (shape_GetClusterInfo env o args).2
      | exact (shape_InstallIstio env o args).2
      | exact (shape_UninstallIstio env o args).2
      | exact (shape_CheckIstioStatus env o args).2
      | exact (shape_InstallSailOperator env o args).2
      | exact (shape_UninstallSailOperator env o args).2
      | exact (shape_CheckSailStatus env o args).2
      | exact (shape_DeploySleepApp env o args).2
      | exact (shape_DeployHttpbinApp env o args).2
      | exact (shape_UndeploySleepApp env o args).2
      | exact (shape_UndeployHttpbinApp env o args).2
      | exact (shape_TestConnectivity env o args).2
      | exact (shape_TestSleepToHttpbin env o args).2
      | exact (shape_GetPodLogs env o args).2
      | exact (shape_GetIstioProxyLogs env o args).2
      | exact (shape_ExecPodCommand env o args).2
      | exact (shape_GetIptablesRules env o args).2
      | exact (shape_GetNetworkPolicies env o args).2
      | exact (shape_TraceNetworkPath env o args).2

/-- The 19 registered tools whose handlers decode the raw payload;
`list_contexts` and `get_cluster_info` never touch it. -/
def decodingTools : List String :=
  ["switch_context", "install_istio", "uninstall_istio", "check_istio_status",
   "install_sail_operator", "uninstall_sail_operator", "check_sail_status",
   "deploy_sleep_app", "deploy_httpbin_app", "undeploy_sleep_app", "undeploy_httpbin_app",
   "test_connectivity", "test_sleep_to_httpbin",
   "get_pod_logs", "get_istio_proxy_logs", "exec_pod_command",
   "get_iptables_rules", "get_network_policies", "trace_network_path"]

/-- C4 counterexample: `list_contexts` is a registered tool, yet invoking
it with a malformed payload (bytes that are not JSON, `RawArgs = none`)
does NOT yield an error result — its handler never decodes the payload
and proceeds to consult the collaborator (the kubeconfig is loaded). -/
theorem C4_counterexample_list_contexts_ignores_payload :
    "list_contexts" ∈ registeredTools ∧
    (ExecuteTool true sampleEnv sampleOracle "list_contexts" none).result.isError = false ∧
    (ExecuteTool true sampleEnv sampleOracle "list_contexts" none).trace =
      [ExtCall.loadKubeconfig] :=
  ⟨by decide, rfl, rfl⟩

/-- C4 amended: for each of the 19 registered tools that decode their
arguments (all but `list_contexts` and `get_cluster_info`), an
undecodable payload — malformed bytes or a wrong-typed value — yields an
`Invalid parameters` error result with an empty collaborator trace, so
no external call is attempted. `list_contexts` and `get_cluster_info`
ignore the payload entirely. -/
theorem C4_amended_malformed_args :
    (∀ env o toolName, toolName ∈ decodingTools →
      ExecuteTool true env o toolName none =
        ⟨errResult ("Invalid parameters: " ++ "unexpected end of JSON input"), none, []⟩ ∧
      ExecuteTool true env o toolName (some (.num 7)) =
        ⟨errResult ("Invalid parameters: " ++ "json: cannot unmarshal value into Go struct"),
         none, []⟩) ∧
    (∀ env o a, ExecuteTool true env o "list_contexts" a = ListContexts env o a) ∧
    (∀ env o a a2, ListContexts env o a = ListContexts env o a2) ∧
    (∀ env o a, ExecuteTool true env o "get_cluster_info" a = GetClusterInfo env o a) ∧
    (∀ env o a a2, GetClusterInfo env o a = GetClusterInfo env o a2) := by
  refine ⟨?_, fun _ _ _ => rfl, fun _ _ _ _ => rfl, fun _ _ _ => rfl, fun _ _ _ _ => rfl⟩
  intro env o toolName h
  simp only [decodingTools, List.mem_cons, List.not_mem_nil, or_false] at h
  rcases h with rfl | rfl | rfl | rfl | rfl | rfl | rfl | rfl | rfl | rfl |
    rfl | rfl | rfl | rfl | rfl | rfl | rfl | rfl | rfl
  all_goals exact ⟨rfl, rfl⟩

/-- Witness for C4 amended at `get_pod_logs` with malformed bytes. -/
theorem C4_amended_malformed_args_witness :
    ExecuteTool true sampleEnv sampleOracle "get_pod_logs" none =
      ⟨errResult ("Invalid parameters: " ++ "unexpected end of JSON input"), none, []⟩ :=
  (C4_amended_malformed_args.1 sampleEnv sampleOracle "get_pod_logs" (by decide)).1

/-- C6: `install_istio` invoked with the empty argument object resolves,
before any installer call, to namespace "istio-system", gateway namespace
"istio-ingress", timeout "5m" (within the documented 5-10 minute range)
and wait = true; consequently (second conjunct) whenever the helm
invocations succeed, the recorded `helm install` calls for istio-base and
istiod both carry `--namespace istio-system --wait --timeout 5m`. -/
theorem C6_install_istio_defaults :
    ((decodeArgs decodeInstallIstioObj (some (Json.obj []))).map defaultInstallIstio =
      .ok { ns := "istio-system", version := "", values := [], installGateway := false,
            gatewayNamespace := "istio-ingress", installCNI := false, cniValues := [],
            timeout := "5m", wait := true }) ∧
    (∀ (env : Env) (o : Oracle) s1 s2 s3 s4 s5,
      o.helm ["version", "--short"] = (s1, none) →
      o.helm ["repo", "add", "istio", "https://istio-release.storage.googleapis.com/charts"] = (s2, none) →
      o.helm ["repo", "update", "istio"] = (s3, none) →
      o.helm ["install", "istio-base", "istio/base", "--namespace", "istio-system",
              "--create-namespace", "--wait", "--timeout", "5m"] = (s4, none) →
      o.helm ["install", "istiod", "istio/istiod", "--namespace", "istio-system",
              "--wait", "--timeout", "5m"] = (s5, none) →
      ExtCall.helm ["install", "istio-base", "istio/base", "--namespace", "istio-system",
                    "--create-namespace", "--wait", "--timeout", "5m"]
          ∈ (ExecuteTool true env o "install_istio" (some (Json.obj []))).trace ∧
      ExtCall.helm ["install", "istiod", "istio/istiod", "--namespace", "istio-system",
                    "--wait", "--timeout", "5m"]
          ∈ (ExecuteTool true env o "install_istio" (some (Json.obj []))).trace) := by
  refine ⟨rfl, ?_⟩
  intro env o s1 s2 s3 s4 s5 h1 h2 h3 h4 h5
  have e1 : checkHelmAvailable o = (none, [.helm ["version", "--short"]]) := by
    unfold checkHelmAvailable
    rw [h1]
  have e2 : addIstioHelmRepo o = (.ok (),
      [.helm ["repo", "add", "istio", "https://istio-release.storage.googleapis.com/charts"],
       .helm ["repo", "update", "istio"]]) := by
    unfold addIstioHelmRepo
    dsimp only
    rw [h2]
    dsimp only
    rw [h3]
  have e4 : installIstioBase o "istio-system" "" true "5m" = (.ok (),
      [.helm ["install", "istio-base", "istio/base", "--namespace", "istio-system",
              "--create-namespace", "--wait", "--timeout", "5m"]]) := by
    unfold installIstioBase
    rw [show istioBaseArgs "istio-system" "" true "5m" =
          ["install", "istio-base", "istio/base", "--namespace", "istio-system",
           "--create-namespace", "--wait", "--timeout", "5m"] from rfl]
    dsimp only
    rw [h4]
  have e5 : installIstiod o "istio-system" "" [] true "5m" = (.ok (),
      [.helm ["install", "istiod", "istio/istiod", "--namespace", "istio-system",
              "--wait", "--timeout", "5m"]]) := by
    unfold installIstiod
    rw [show istiodArgs "istio-system" "" [] true "5m" =
          ["install", "istiod", "istio/istiod", "--namespace", "istio-system",
           "--wait", "--timeout", "5m"] from rfl]
    dsimp only
    rw [h5]
  show _ ∈ (InstallIstio env o (some (Json.obj []))).trace ∧
       _ ∈ (InstallIstio env o (some (Json.obj []))).trace
  unfold InstallIstio
  rw [show decodeArgs decodeInstallIstioObj (some (Json.obj [])) =
        Except.ok { ns := "", version := "", values := [], installGateway := false,
                    gatewayNamespace := "", installCNI := false, cniValues := [],
                    timeout := "", wait := false } from rfl]
  dsimp only [defaultInstallIstio]
  norm_num
  rw [e1]
  dsimp only
  rw [e2]
  dsimp only
  rw [e4]
  dsimp only
  rw [e5]
  simp [List.mem_append]


/-- Witness for C6: the helm hypotheses hold for the sample collaborator,
whose helm calls all succeed. -/
theorem C6_install_istio_defaults_witness :
    ExtCall.helm ["install", "istio-base", "istio/base", "--namespace", "istio-system",
                  "--create-namespace", "--wait", "--timeout", "5m"]
        ∈ (ExecuteTool true sampleEnv sampleOracle "install_istio" (some (Json.obj []))).trace ∧
    ExtCall.helm ["install", "istiod", "istio/istiod", "--namespace", "istio-system",
                  "--wait", "--timeout", "5m"]
        ∈ (ExecuteTool true sampleEnv sampleOracle "install_istio" (some (Json.obj []))).trace :=
  C6_install_istio_defaults.2 sampleEnv sampleOracle "ok" "ok" "ok" "ok" "ok"
    rfl rfl rfl rfl rfl

/-- C7: `test_connectivity` with only the required fields resolves the
protocol to "http" and the timeout to 10 (first conjunct); for http
(second conjunct) and likewise for https (third conjunct), when the
collaborator's exec output yields a parsed HTTP status code, the handler
returns a non-error result whose structured content carries that status
code and `success = true` exactly when `200 <= code < 400` — at the
spec's HTTP_CODE:200 scenario this gives `success: true` and
`status_code: 200`; a resolved protocol outside
\x7bhttp, https, tcp\x7d yields an "Unsupported protocol" error result
(fourth conjunct). -/
theorem C7_test_connectivity_outcome :
    ((decodeArgs decodeTestConnectivityObj
        (some (.obj [("source_pod", .str "sleep-abcde"),
                     ("target_service", .str "httpbin.default.svc.cluster.local"),
                     ("target_port", .num 8000)]))).map defaultTestConnectivity =
      .ok { sourcePod := "sleep-abcde", sourceNamespace := "default",
            targetService := "httpbin.default.svc.cluster.local", targetPort := 8000,
            protocol := "http", path := "/", timeout := 10, method := "GET" }) ∧
    (∀ (env : Env) (o : Oracle) pod out code,
      o.getPod "default" "sleep-abcde" = .ok pod →
      o.execInPod "default" "sleep-abcde" "sleep"
        (curlCommand "http" "httpbin.default.svc.cluster.local" 8000 "/" "GET" 10) = .ok out →
      parseHttpCode out = some code →
      ∃ r : ConnTestResult,
        (ExecuteTool true env o "test_connectivity"
          (some (.obj [("source_pod", .str "sleep-abcde"),
                       ("target_service", .str "httpbin.default.svc.cluster.local"),
                       ("target_port", .num 8000)]))).result =
          okResult (renderJson (Json.obj
            [("results", .arr [connTestResultJson r]),
             ("summary", .str ("Connectivity test from " ++ r.source.name ++ " to "
               ++ r.destination.name ++ ": " ++ (if r.success then "SUCCESS" else "FAILED")))])) ∧
        r.statusCode = code ∧
        (r.success = true ↔ (200 ≤ code ∧ code < 400))) ∧
    (∀ (env : Env) (o : Oracle) pod out code,
      o.getPod "default" "sleep-abcde" = .ok pod →
      o.execInPod "default" "sleep-abcde" "sleep"
        (curlCommand "https" "httpbin.default.svc.cluster.local" 8000 "/" "GET" 10) = .ok out →
      parseHttpCode out = some code →
      ∃ r : ConnTestResult,
        (ExecuteTool true env o "test_connectivity"
          (some (.obj [("source_pod", .str "sleep-abcde"),
                       ("target_service", .str "httpbin.default.svc.cluster.local"),
                       ("target_port", .num 8000), ("protocol", .str "https")]))).result =
          okResult (renderJson (Json.obj
            [("results", .arr [connTestResultJson r]),
             ("summary", .str ("Connectivity test from " ++ r.source.name ++ " to "
               ++ r.destination.name ++ ": " ++ (if r.success then "SUCCESS" else "FAILED")))])) ∧
        r.statusCode = code ∧
        (r.success = true ↔ (200 ≤ code ∧ code < 400))) ∧
    (∀ (env : Env) (o : Oracle) pod proto,
      o.getPod "default" "sleep-abcde" = .ok pod →
      proto ≠ "" → proto ≠ "http" → proto ≠ "https" → proto ≠ "tcp" →
      ExecuteTool true env o "test_connectivity"
        (some (.obj [("source_pod", .str "sleep-abcde"),
                     ("target_service", .str "httpbin.default.svc.cluster.local"),
                     ("target_port", .num 8000), ("protocol", .str proto)])) =
        ⟨errResult ("Unsupported protocol: " ++ proto), none,
         [.getPod "default" "sleep-abcde"]⟩) := by
  refine ⟨rfl, ?_, ?_, ?_⟩
  · intro env o pod out code hpod hexec hparse
    rw [show ExecuteTool true env o "test_connectivity"
          (some (.obj [("source_pod", .str "sleep-abcde"),
                       ("target_service", .str "httpbin.default.svc.cluster.local"),
                       ("target_port", .num 8000)])) =
        TestConnectivity env o
          (some (.obj [("source_pod", .str "sleep-abcde"),
                       ("target_service", .str "httpbin.default.svc.cluster.local"),
                       ("target_port", .num 8000)])) from rfl]
    unfold TestConnectivity
    rw [show decodeArgs decodeTestConnectivityObj
          (some (.obj [("source_pod", .str "sleep-abcde"),
                       ("target_service", .str "httpbin.default.svc.cluster.local"),
                       ("target_port", .num 8000)])) =
        Except.ok { sourcePod := "sleep-abcde", sourceNamespace := "",
                    targetService := "httpbin.default.svc.cluster.local", targetPort := 8000,
                    protocol := "", path := "", timeout := 0, method := "" } from rfl]
    dsimp only
    rw [if_neg (show ¬ ("sleep-abcde" = "") by decide)]
    rw [if_neg (show ¬ ("httpbin.default.svc.cluster.local" = "") by decide)]
    rw [if_neg (show ¬ ((8000 : Int) = 0) by decide)]
    rw [show defaultTestConnectivity
          { sourcePod := "sleep-abcde", sourceNamespace := "",
            targetService := "httpbin.default.svc.cluster.local", targetPort := 8000,
            protocol := "", path := "", timeout := 0, method := "" } =
        { sourcePod := "sleep-abcde", sourceNamespace := "default",
          targetService := "httpbin.default.svc.cluster.local", targetPort := 8000,
          protocol := "http", path := "/", timeout := 10, method := "GET" } from rfl]
    dsimp only
    rw [hpod]
    dsimp only
    rw [if_pos (show ("http" = "http" ∨ "http" = "https") by decide)]
    dsimp only
    rw [hexec]
    dsimp only
    rw [if_pos (show ("http" = "http" ∨ "http" = "https") by decide)]
    unfold httpOutcome
    rw [hparse]
    dsimp only
    refine ⟨_, rfl, rfl, ?_⟩
    simp [decide_eq_true_eq]
  · intro env o pod out code hpod hexec hparse
    rw [show ExecuteTool true env o "test_connectivity"
          (some (.obj [("source_pod", .str "sleep-abcde"),
                       ("target_service", .str "httpbin.default.svc.cluster.local"),
                       ("target_port", .num 8000), ("protocol", .str "https")])) =
        TestConnectivity env o
          (some (.obj [("source_pod", .str "sleep-abcde"),
                       ("target_service", .str "httpbin.default.svc.cluster.local"),
                       ("target_port", .num 8000), ("protocol", .str "https")])) from rfl]
    unfold TestConnectivity
    rw [show decodeArgs decodeTestConnectivityObj
          (some (.obj [("source_pod", .str "sleep-abcde"),
                       ("target_service", .str "httpbin.default.svc.cluster.local"),
                       ("target_port", .num 8000), ("protocol", .str "https")])) =
        Except.ok { sourcePod := "sleep-abcde", sourceNamespace := "",
                    targetService := "httpbin.default.svc.cluster.local", targetPort := 8000,
                    protocol := "https", path := "", timeout := 0, method := "" } from rfl]
    dsimp only
    rw [if_neg (show ¬ ("sleep-abcde" = "") by decide)]
    rw [if_neg (show ¬ ("httpbin.default.svc.cluster.local" = "") by decide)]
    rw [if_neg (show ¬ ((8000 : Int) = 0) by decide)]
    rw [show defaultTestConnectivity
          { sourcePod := "sleep-abcde", sourceNamespace := "",
            targetService := "httpbin.default.svc.cluster.local", targetPort := 8000,
            protocol := "https", path := "", timeout := 0, method := "" } =
        { sourcePod := "sleep-abcde", sourceNamespace := "default",
          targetService := "httpbin.default.svc.cluster.local", targetPort := 8000,
          protocol := "https", path := "/", timeout := 10, method := "GET" } from rfl]
    dsimp only
    rw [hpod]
    dsimp only
    rw [if_pos (show ("https" = "http" ∨ "https" = "https") by decide)]
    dsimp only
    rw [hexec]
    dsimp only
    rw [if_pos (show ("https" = "http" ∨ "https" = "https") by decide)]
    unfold httpOutcome
    rw [hparse]
    dsimp only
    refine ⟨_, rfl, rfl, ?_⟩
    simp [decide_eq_true_eq]
  · intro env o pod proto hpod hne hh hhs ht
    rw [show ExecuteTool true env o "test_connectivity"
          (some (.obj [("source_pod", .str "sleep-abcde"),
                       ("target_service", .str "httpbin.default.svc.cluster.local"),
                       ("target_port", .num 8000), ("protocol", .str proto)])) =
        TestConnectivity env o
          (some (.obj [("source_pod", .str "sleep-abcde"),
                       ("target_service", .str "httpbin.default.svc.cluster.local"),
                       ("target_port", .num 8000), ("protocol", .str proto)])) from rfl]
    unfold TestConnectivity
    rw [show decodeArgs decodeTestConnectivityObj
          (some (.obj [("source_pod", .str "sleep-abcde"),
                       ("target_service", .str "httpbin.default.svc.cluster.local"),
                       ("target_port", .num 8000), ("protocol", .str proto)])) =
        Except.ok { sourcePod := "sleep-abcde", sourceNamespace := "",
                    targetService := "httpbin.default.svc.cluster.local", targetPort := 8000,
                    protocol := proto, path := "", timeout := 0, method := "" } from rfl]
    try dsimp only
    rw [if_neg (show ¬ ("sleep-abcde" = "") by decide)]
    rw [if_neg (show ¬ ("httpbin.default.svc.cluster.local" = "") by decide)]
    rw [if_neg (show ¬ ((8000 : Int) = 0) by decide)]
    unfold defaultTestConnectivity
    try dsimp only
    rw [if_pos (show ("" : String) = "" from rfl), if_neg hne,
        if_pos (show ("" : String) = "" from rfl),
        if_pos (show ((0 : Int) = 0) from rfl),
        if_pos (show ("" : String) = "" from rfl)]
    try dsimp only
    rw [hpod]
    try dsimp only
    rw [if_neg (show ¬ (proto = "http" ∨ proto = "https") from fun hc => hc.elim hh hhs),
        if_neg ht]

/-- Witness for C7: the sample collaborator reports an exec output
containing HTTP_CODE:200 (exercising both the http and the https
branches), and "udp" exercises the unsupported-protocol branch. -/
theorem C7_test_connectivity_outcome_witness :
    (∃ r : ConnTestResult,
      (ExecuteTool true sampleEnv sampleOracle "test_connectivity"
        (some (.obj [("source_pod", .str "sleep-abcde"),
                     ("target_service", .str "httpbin.default.svc.cluster.local"),
                     ("target_port", .num 8000)]))).result =
        okResult (renderJson (Json.obj
          [("results", .arr [connTestResultJson r]),
           ("summary", .str ("Connectivity test from " ++ r.source.name ++ " to "
             ++ r.destination.name ++ ": " ++ (if r.success then "SUCCESS" else "FAILED")))])) ∧
      r.statusCode = 200 ∧
      (r.success = true ↔ ((200 : Int) ≤ 200 ∧ (200 : Int) < 400))) ∧
    (∃ r : ConnTestResult,
      (ExecuteTool true sampleEnv sampleOracle "test_connectivity"
        (some (.obj [("source_pod", .str "sleep-abcde"),
                     ("target_service", .str "httpbin.default.svc.cluster.local"),
                     ("target_port", .num 8000), ("protocol", .str "https")]))).result =
        okResult (renderJson (Json.obj
          [("results", .arr [connTestResultJson r]),
           ("summary", .str ("Connectivity test from " ++ r.source.name ++ " to "
             ++ r.destination.name ++ ": " ++ (if r.success then "SUCCESS" else "FAILED")))])) ∧
      r.statusCode = 200 ∧
      (r.success = true ↔ ((200 : Int) ≤ 200 ∧ (200 : Int) < 400))) ∧
    ExecuteTool true sampleEnv sampleOracle "test_connectivity"
        (some (.obj [("source_pod", .str "sleep-abcde"),
                     ("target_service", .str "httpbin.default.svc.cluster.local"),
                     ("target_port", .num 8000), ("protocol", .str "udp")])) =
      ⟨errResult ("Unsupported protocol: " ++ "udp"), none,
       [.getPod "default" "sleep-abcde"]⟩ :=
  ⟨C7_test_connectivity_outcome.2.1 sampleEnv sampleOracle
     ⟨"sleep-abcde", "default", ["sleep"], "10.1.0.2", "node-1", some [("app", "sleep")]⟩
     "hi\nHTTP_CODE:200\nTIME_TOTAL:0.010\n" 200 rfl rfl rfl,
   C7_test_connectivity_outcome.2.2.1 sampleEnv sampleOracle
     ⟨"sleep-abcde", "default", ["sleep"], "10.1.0.2", "node-1", some [("app", "sleep")]⟩
     "hi\nHTTP_CODE:200\nTIME_TOTAL:0.010\n" 200 rfl rfl rfl,
   C7_test_connectivity_outcome.2.2.2 sampleEnv sampleOracle
     ⟨"sleep-abcde", "default", ["sleep"], "10.1.0.2", "node-1", some [("app", "sleep")]⟩
     "udp" rfl (by decide) (by decide) (by decide) (by decide)⟩

/-- Two presentations of the same two-context kubeconfig, differing only
in the order the runtime enumerates the context map. -/
def cfgAB : Kubeconfig :=
  ⟨[("kind-a", ⟨"kind-a", "admin-a", "default"⟩),
    ("kind-b", ⟨"kind-b", "admin-b", "dev"⟩)], "kind-a"⟩

def cfgBA : Kubeconfig :=
  ⟨[("kind-b", ⟨"kind-b", "admin-b", "dev"⟩),
    ("kind-a", ⟨"kind-a", "admin-a", "default"⟩)], "kind-a"⟩

/-- The sample collaborator with a given kubeconfig. -/
def oracleWithKubeconfig (cfg : Kubeconfig) : Oracle :=
  { sampleOracle with loadKubeconfig := .ok cfg }

/-- C8 counterexample: `list_contexts` iterates a Go map, whose iteration
order is unspecified, so two invocations against the SAME kubeconfig
(same context-map entries, same current context — witnessed by the
permutation) may emit the contexts in different orders and therefore
produce content that is NOT byte-identical. -/
theorem C8_counterexample_list_contexts_order :
    cfgAB.contexts.Perm cfgBA.contexts ∧
    cfgAB.currentContext = cfgBA.currentContext ∧
    (ExecuteTool true sampleEnv (oracleWithKubeconfig cfgAB) "list_contexts"
      (some (.obj []))).result ≠
    (ExecuteTool true sampleEnv (oracleWithKubeconfig cfgBA) "list_contexts"
      (some (.obj []))).result :=
  ⟨by decide, rfl, by decide⟩

/-- C8 amended: `check_istio_status` is a pure function of its arguments
and the collaborator's responses — in particular it never consults the
clock — so repeating it against an unchanged external state is
byte-identical; the same holds for `list_contexts` (which also ignores
its payload) ONLY up to the runtime's context-enumeration order: with at
most one context the output is independent of that order, while with two
or more contexts it need not be (see the counterexample). -/
theorem C8_amended_status_determinism :
    (∀ env o args, ExecuteTool true env o "check_istio_status" args =
      CheckIstioStatus env o args) ∧
    (∀ env env2 (o : Oracle) args,
      CheckIstioStatus env o args = CheckIstioStatus env2 o args) ∧
    (∀ env o args, ExecuteTool true env o "list_contexts" args = ListContexts env o args) ∧
    (∀ env env2 (o : Oracle) args args2,
      ListContexts env o args = ListContexts env2 o args2) ∧
    (∀ (cfg cfg2 : Kubeconfig) env env2 (o o2 : Oracle) args args2,
      cfg.contexts.Perm cfg2.contexts →
      cfg.currentContext = cfg2.currentContext →
      cfg.contexts.length ≤ 1 →
      o.loadKubeconfig = .ok cfg →
      o2.loadKubeconfig = .ok cfg2 →
      (ListContexts env o args).result = (ListContexts env2 o2 args2).result) := by
  refine ⟨fun _ _ _ => rfl, fun _ _ _ _ => rfl, fun _ _ _ => rfl, fun _ _ _ _ _ => rfl, ?_⟩
  intro cfg cfg2 env env2 o o2 args args2 hperm hcur hlen ho ho2
  have hctx : cfg.contexts = cfg2.contexts := by
    cases hl : cfg.contexts with
    | nil =>
      rw [hl] at hperm
      exact hperm.nil_eq
    | cons x xs =>
      rw [hl] at hperm hlen
      rw [List.length_cons] at hlen
      have hxs : xs = [] := List.eq_nil_of_length_eq_zero (by omega)
      subst hxs
      exact (List.perm_singleton.mp hperm.symm).symm
  unfold ListContexts
  rw [ho, ho2]
  dsimp only
  rw [hctx, hcur]

/-- Witness for C8 amended at a one-context kubeconfig. -/
theorem C8_amended_status_determinism_witness :
    (ListContexts sampleEnv (oracleWithKubeconfig ⟨[("kind-a", ⟨"kind-a", "admin-a", "default"⟩)], "kind-a"⟩) (some (.obj []))).result =
    (ListContexts sampleEnv (oracleWithKubeconfig ⟨[("kind-a", ⟨"kind-a", "admin-a", "default"⟩)], "kind-a"⟩) (some (.obj []))).result :=
  C8_amended_status_determinism.2.2.2.2
    ⟨[("kind-a", ⟨"kind-a", "admin-a", "default"⟩)], "kind-a"⟩
    ⟨[("kind-a", ⟨"kind-a", "admin-a", "default"⟩)], "kind-a"⟩
    sampleEnv sampleEnv _ _ (some (.obj [])) (some (.obj []))
    (List.Perm.refl _) rfl (by decide) rfl rfl

/-- C10: an explicitly supplied zero value is indistinguishable from
omission, for every optional parameter of every registered tool. For each
of the 19 tools whose handlers decode a parameter struct, inserting ANY
declared field carrying the zero JSON value of its type (the per-tool
zeroFields lists enumerate every field: strings as "", integers as 0,
booleans as false, arrays as [] and objects as {}) into a payload that
does not otherwise mention that field leaves the handler invocation EQUAL
to the omitted-field invocation; list_contexts and get_cluster_info take
no parameters and ignore the payload entirely, and the dispatcher links
tie every registered tool name to its handler. Concretely, the shared
defaulting then resolves replicas: 0 / namespace: "" of the deploy tools
to 1 replica and namespace "default" (there is no way to request zero
replicas), lines: 0 of get_pod_logs to 100, and timeout: 0 of
test_connectivity to 10. -/
theorem C10_zero_value_equals_omitted :
    (∀ env o k zv fs, (k, zv) ∈ zeroFieldsTraceNetworkPath → jLookup fs k = none →
      TraceNetworkPath env o (some (.obj ((k, zv) :: fs))) =
        TraceNetworkPath env o (some (.obj fs))) ∧
    (∀ env o k zv fs, (k, zv) ∈ zeroFieldsSwitchContext → jLookup fs k = none →
      SwitchContext env o (some (.obj ((k, zv) :: fs))) =
        SwitchContext env o (some (.obj fs))) ∧
    (∀ env o k zv fs, (k, zv) ∈ zeroFieldsInstallIstio → jLookup fs k = none →
      InstallIstio env o (some (.obj ((k, zv) :: fs))) =
        InstallIstio env o (some (.obj fs))) ∧
    (∀ env o k zv fs, (k, zv) ∈ zeroFieldsUninstallIstio → jLookup fs k = none →
      UninstallIstio env o (some (.obj ((k, zv) :: fs))) =
        UninstallIstio env o (some (.obj fs))) ∧
    (∀ env o k zv fs, (k, zv) ∈ zeroFieldsNamespaceOnly → jLookup fs k = none →
      CheckIstioStatus env o (some (.obj ((k, zv) :: fs))) =
        CheckIstioStatus env o (some (.obj fs))) ∧
    (∀ env o k zv fs, (k, zv) ∈ zeroFieldsInstallSail → jLookup fs k = none →
      InstallSailOperator env o (some (.obj ((k, zv) :: fs))) =
        InstallSailOperator env o (some (.obj fs))) ∧
    (∀ env o k zv fs, (k, zv) ∈ zeroFieldsUninstallSail → jLookup fs k = none →
      UninstallSailOperator env o (some (.obj ((k, zv) :: fs))) =
        UninstallSailOperator env o (some (.obj fs))) ∧
    (∀ env o k zv fs, (k, zv) ∈ zeroFieldsNamespaceOnly → jLookup fs k = none →
      CheckSailStatus env o (some (.obj ((k, zv) :: fs))) =
        CheckSailStatus env o (some (.obj fs))) ∧
    (∀ env o k zv fs, (k, zv) ∈ zeroFieldsDeploySleep → jLookup fs k = none →
      DeploySleepApp env o (some (.obj ((k, zv) :: fs))) =
        DeploySleepApp env o (some (.obj fs))) ∧
    (∀ env o k zv fs, (k, zv) ∈ zeroFieldsDeployHttpbin → jLookup fs k = none →
      DeployHttpbinApp env o (some (.obj ((k, zv) :: fs))) =
        DeployHttpbinApp env o (some (.obj fs))) ∧
    (∀ env o k zv fs, (k, zv) ∈ zeroFieldsNamespaceOnly → jLookup fs k = none →
      UndeploySleepApp env o (some (.obj ((k, zv) :: fs))) =
        UndeploySleepApp env o (some (.obj fs))) ∧
    (∀ env o k zv fs, (k, zv) ∈ zeroFieldsNamespaceOnly → jLookup fs k = none →
      UndeployHttpbinApp env o (some (.obj ((k, zv) :: fs))) =
        UndeployHttpbinApp env o (some (.obj fs))) ∧
    (∀ env o k zv fs, (k, zv) ∈ zeroFieldsTestConnectivity → jLookup fs k = none →
      TestConnectivity env o (some (.obj ((k, zv) :: fs))) =
        TestConnectivity env o (some (.obj fs))) ∧
    (∀ env o k zv fs, (k, zv) ∈ zeroFieldsTestSleepToHttpbin → jLookup fs k = none →
      TestSleepToHttpbin env o (some (.obj ((k, zv) :: fs))) =
        TestSleepToHttpbin env o (some (.obj fs))) ∧
    (∀ env o k zv fs, (k, zv) ∈ zeroFieldsGetPodLogs → jLookup fs k = none →
      GetPodLogs env o (some (.obj ((k, zv) :: fs))) =
        GetPodLogs env o (some (.obj fs))) ∧
    (∀ env o k zv fs, (k, zv) ∈ zeroFieldsGetIstioProxyLogs → jLookup fs k = none →
      GetIstioProxyLogs env o (some (.obj ((k, zv) :: fs))) =
        GetIstioProxyLogs env o (some (.obj fs))) ∧
    (∀ env o k zv fs, (k, zv) ∈ zeroFieldsExecPodCommand → jLookup fs k = none →
      ExecPodCommand env o (some (.obj ((k, zv) :: fs))) =
        ExecPodCommand env o (some (.obj fs))) ∧
    (∀ env o k zv fs, (k, zv) ∈ zeroFieldsGetIptablesRules → jLookup fs k = none →
      GetIptablesRules env o (some (.obj ((k, zv) :: fs))) =
        GetIptablesRules env o (some (.obj fs))) ∧
    (∀ env o k zv fs, (k, zv) ∈ zeroFieldsGetNetworkPolicies → jLookup fs k = none →
      GetNetworkPolicies env o (some (.obj ((k, zv) :: fs))) =
        GetNetworkPolicies env o (some (.obj fs))) ∧
    (∀ env o a a2, ListContexts env o a = ListContexts env o a2) ∧
    (∀ env o a a2, GetClusterInfo env o a = GetClusterInfo env o a2) ∧
    (∀ env o a, ExecuteTool true env o "list_contexts" a = ListContexts env o a) ∧
    (∀ env o a, ExecuteTool true env o "switch_context" a = SwitchContext env o a) ∧
    (∀ env o a, ExecuteTool true env o "get_cluster_info" a = GetClusterInfo env o a) ∧
    (∀ env o a, ExecuteTool true env o "install_istio" a = InstallIstio env o a) ∧
    (∀ env o a, ExecuteTool true env o "uninstall_istio" a = UninstallIstio env o a) ∧
    (∀ env o a, ExecuteTool true env o "check_istio_status" a = CheckIstioStatus env o a) ∧
    (∀ env o a, ExecuteTool true env o "install_sail_operator" a = InstallSailOperator env o a) ∧
    (∀ env o a, ExecuteTool true env o "uninstall_sail_operator" a = UninstallSailOperator env o a) ∧
    (∀ env o a, ExecuteTool true env o "check_sail_status" a = CheckSailStatus env o a) ∧
    (∀ env o a, ExecuteTool true env o "undeploy_sleep_app" a = UndeploySleepApp env o a) ∧
    (∀ env o a, ExecuteTool true env o "undeploy_httpbin_app" a = UndeployHttpbinApp env o a) ∧
    (∀ env o a, ExecuteTool true env o "test_sleep_to_httpbin" a = TestSleepToHttpbin env o a) ∧
    (∀ env o a, ExecuteTool true env o "get_istio_proxy_logs" a = GetIstioProxyLogs env o a) ∧
    (∀ env o a, ExecuteTool true env o "exec_pod_command" a = ExecPodCommand env o a) ∧
    (∀ env o a, ExecuteTool true env o "get_iptables_rules" a = GetIptablesRules env o a) ∧
    (∀ env o a, ExecuteTool true env o "get_network_policies" a = GetNetworkPolicies env o a) ∧
    (∀ env o a, ExecuteTool true env o "trace_network_path" a = TraceNetworkPath env o a) ∧
    (∀ env o a, ExecuteTool true env o "deploy_sleep_app" a = DeploySleepApp env o a) ∧
    (∀ env o, DeploySleepApp env o (some (.obj [("replicas", .num 0)])) =
      DeploySleepApp env o (some (.obj []))) ∧
    (∀ env o, DeploySleepApp env o (some (.obj [("namespace", .str "")])) =
      DeploySleepApp env o (some (.obj []))) ∧
    ((decodeArgs decodeDeploySleepObj (some (.obj []))).map defaultDeploySleep =
      .ok { ns := "default", istioInjection := true, replicas := 1 }) ∧
    (∀ env o a, ExecuteTool true env o "deploy_httpbin_app" a = DeployHttpbinApp env o a) ∧
    (∀ env o, DeployHttpbinApp env o (some (.obj [("replicas", .num 0)])) =
      DeployHttpbinApp env o (some (.obj []))) ∧
    (∀ env o, DeployHttpbinApp env o (some (.obj [("namespace", .str "")])) =
      DeployHttpbinApp env o (some (.obj []))) ∧
    ((decodeArgs decodeDeployHttpbinObj (some (.obj []))).map defaultDeployHttpbin =
      .ok { ns := "default", istioInjection := true, replicas := 1, exposeService := true }) ∧
    (∀ env o a, ExecuteTool true env o "get_pod_logs" a = GetPodLogs env o a) ∧
    (∀ env o, GetPodLogs env o (some (.obj [("pod_name", .str "p1"), ("lines", .num 0)])) =
      GetPodLogs env o (some (.obj [("pod_name", .str "p1")]))) ∧
    ((decodeArgs decodeGetPodLogsObj (some (.obj [("pod_name", .str "p1")]))).map
        defaultGetPodLogs =
      .ok { podName := "p1", ns := "default", container := "", lines := 100, since := "",
            follow := false, previous := false, timestamps := true, parseLogs := false,
            maxLines := 1000 }) ∧
    (∀ env o a, ExecuteTool true env o "test_connectivity" a = TestConnectivity env o a) ∧
    (∀ env o, TestConnectivity env o
        (some (.obj [("source_pod", .str "s1"), ("target_service", .str "svc"),
                     ("target_port", .num 8000), ("timeout", .num 0)])) =
      TestConnectivity env o
        (some (.obj [("source_pod", .str "s1"), ("target_service", .str "svc"),
                     ("target_port", .num 8000)]))) ∧
    ((decodeArgs decodeTestConnectivityObj
        (some (.obj [("source_pod", .str "s1"), ("target_service", .str "svc"),
                     ("target_port", .num 8000)]))).map defaultTestConnectivity =
      .ok { sourcePod := "s1", sourceNamespace := "default", targetService := "svc",
            targetPort := 8000, protocol := "http", path := "/", timeout := 10,
            method := "GET" }) :=
  ⟨zeroOmitted_TraceNetworkPath, zeroOmitted_SwitchContext, zeroOmitted_InstallIstio, zeroOmitted_UninstallIstio, zeroOmitted_CheckIstioStatus, zeroOmitted_InstallSailOperator, zeroOmitted_UninstallSailOperator, zeroOmitted_CheckSailStatus, zeroOmitted_DeploySleepApp, zeroOmitted_DeployHttpbinApp, zeroOmitted_UndeploySleepApp, zeroOmitted_UndeployHttpbinApp, zeroOmitted_TestConnectivity, zeroOmitted_TestSleepToHttpbin, zeroOmitted_GetPodLogs, zeroOmitted_GetIstioProxyLogs, zeroOmitted_ExecPodCommand, zeroOmitted_GetIptablesRules, zeroOmitted_GetNetworkPolicies,
   fun ea oa xa ya => rfl, fun eb ob xb yb => rfl,
   fun ec oc ac => rfl, fun ed od ad => rfl, fun ee oe ae => rfl, fun ef og af => rfl,
   fun eg oh ag => rfl, fun eh oi ah => rfl, fun ei oj ai => rfl, fun ej ok2 aj => rfl,
   fun ek ol ak => rfl, fun el om2 al => rfl, fun em on2 am => rfl, fun en oo an => rfl,
   fun eo op2 ao => rfl, fun ep oq ap2 => rfl, fun eq2 or2 aq => rfl, fun er os2 ar => rfl,
   fun es ot au => rfl,
   fun _ _ _ => rfl, fun _ _ => rfl, fun _ _ => rfl, rfl,
   fun _ _ _ => rfl, fun _ _ => rfl, fun _ _ => rfl, rfl,
   fun _ _ _ => rfl, fun _ _ => rfl, rfl,
   fun _ _ _ => rfl, fun _ _ => rfl, rfl⟩

/-- Closed instance of C10: inserting source_pod: "" into a
trace_network_path payload that omits it leaves the handler invocation
unchanged. -/
theorem C10_zero_value_equals_omitted_witness :
    TraceNetworkPath sampleEnv sampleOracle
        (some (.obj [("source_pod", .str ""), ("max_hops", .num 5)])) =
      TraceNetworkPath sampleEnv sampleOracle (some (.obj [("max_hops", .num 5)])) :=
  C10_zero_value_equals_omitted.1 sampleEnv sampleOracle "source_pod" (.str "")
    [("max_hops", .num 5)] (List.mem_cons_self _ _) rfl

end Meshpilot
